import Mathlib

/-!
# Redis object layer (`src/object.c`): a shallow embedding

The C file manipulates `robj` headers that live in the allocator's heap.  The
embedding makes the heap explicit: a `State` holds every block ever handed out
by the allocator together with the number of times it has been released, the
table `shared.integers`, and the LRU clock.  Every C function becomes a Lean
function from a `State` (and its arguments) to an `Outcome`.

Declarations that `object.c` takes from `server.h`, `sds.h` and the collaborator
libraries (which are not part of the sources) are modelled next to their first
use and marked as such.
-/

namespace RedisObject

/-! ## Constants of `server.h` -/

/-- Modelled from the spec: object type tags of `server.h` (String, List, Set, SortedSet, Hash). -/
def OBJ_STRING : Nat := 0
/-- Modelled from the spec: the List type tag. -/
def OBJ_LIST : Nat := 1
/-- Modelled from the spec: the Set type tag. -/
def OBJ_SET : Nat := 2
/-- Modelled from the spec: the SortedSet type tag. -/
def OBJ_ZSET : Nat := 3
/-- Modelled from the spec: the Hash type tag. -/
def OBJ_HASH : Nat := 4

/-- Modelled from the spec: Heap-string / generic encoding tag. -/
def OBJ_ENCODING_RAW : Nat := 0
/-- Modelled from the spec: Inline-integer encoding tag. -/
def OBJ_ENCODING_INT : Nat := 1
/-- Modelled from the spec: Hash-based encoding tag. -/
def OBJ_ENCODING_HT : Nat := 2
/-- Modelled from the spec: Compact-sequence (ziplist) encoding tag. -/
def OBJ_ENCODING_ZIPLIST : Nat := 5
/-- Modelled from the spec: Integer-set encoding tag. -/
def OBJ_ENCODING_INTSET : Nat := 6
/-- Modelled from the spec: Hash+rank-structure (skiplist) encoding tag. -/
def OBJ_ENCODING_SKIPLIST : Nat := 7
/-- Modelled from the spec: Embedded-string encoding tag. -/
def OBJ_ENCODING_EMBSTR : Nat := 8
/-- Modelled from the spec: quicklist encoding tag of lists. -/
def OBJ_ENCODING_QUICKLIST : Nat := 9

/-- Modelled from the spec: `createObject` writes the name `OBJECT_ENCODING_RAW`, which
no other line of `object.c` uses and whose definition is not in the sources.  The spec says
that the generic constructor's encoding "defaults to heap/generic", so the name is given
the value of `OBJ_ENCODING_RAW`. -/
def OBJECT_ENCODING_RAW : Nat := OBJ_ENCODING_RAW

/-- The `#define OBJ_ENCODING_EMBSTR_SIZE_LIMIT 44` of `object.c`. -/
def OBJ_ENCODING_EMBSTR_SIZE_LIMIT : Nat := 44

/-- Modelled from the spec: `SDS_TYPE_8` of `sds.h`, the header kind with one-byte lengths. -/
def SDS_TYPE_8 : Nat := 1

/-- Constants that depend on the build: the size of the shared integer pool and the range
of the C type `long`. -/
structure Platform where
  OBJ_SHARED_INTEGERS : Nat
  LONG_MIN : Int
  LONG_MAX : Int
deriving DecidableEq, Repr

/-! ## Heap model -/

/-- An address names one block handed out by the allocator. -/
abbrev Addr := Nat

/-- The `void *ptr` field of an `robj`. -/
inductive Ptr where
  /-- The null pointer `NULL`. -/
  | null
  /-- An integer cast to a pointer: `(void *)((long) value)`. -/
  | long (v : Int)
  /-- The address of `sh->buf` inside the embedded-string chunk `a`. -/
  | buf (a : Addr)
  /-- The address of the separately allocated block `a`. -/
  | ref (a : Addr)
deriving DecidableEq, Repr

/-- Modelled from the spec: the `robj` header of `server.h`, with the five fields that
`object.c` reads and writes.  `incrRefCount` spells the counter `refcoung`; the header
has one reference counter, so that spelling denotes `refcount`. -/
structure Robj where
  type : Nat
  encoding : Nat
  lru : Nat
  refcount : Int
  ptr : Ptr
deriving DecidableEq, Repr

/-- The kinds of `dictType` that `object.c` passes to `dictCreate`. -/
inductive DictType where
  | setDictType
  | zsetDictType
deriving DecidableEq, Repr

/-- What an allocated block holds. -/
inductive Block where
  /-- A plain header: `zmalloc(sizeof(robj))`. -/
  | robj (o : Robj)
  /-- One chunk `zmalloc(sizeof(robj) + sizeof(sdshdr8) + len + 1)`: header, `sdshdr8`, buffer. -/
  | embstr (o : Robj) (len alloc flags : Nat) (buf : List UInt8)
  /-- An sds string: its length and its buffer (content and terminator). -/
  | sds (len : Nat) (buf : List UInt8)
  | quicklist
  | ziplist
  | intset
  | dict (type : DictType)
  | zskiplist
  /-- A `zset` pair: the fields `dict` and `zsl` (`none` before they are assigned). -/
  | zset (dict zsl : Option Addr)
deriving DecidableEq, Repr

/-- A block and the number of times it has been released. -/
structure Cell where
  block : Block
  frees : Nat
deriving DecidableEq, Repr

/-- The state of the process as far as `object.c` can see it. -/
structure State where
  /-- Every block allocated so far; the address of a block is its index. -/
  heap : List Cell
  /-- The table `shared.integers`. -/
  integers : List Addr
  /-- The value that `LRU_CLOCK()` reads. -/
  lruclock : Nat
deriving DecidableEq, Repr

/-- The result of running a C function.  `serverPanic` and `serverAssert` are macros of
`server.h`; following the spec ("fatal": the operation is aborted, never silently
ignored) they do not return.
* `ret v s`: the function returned `v`, leaving the state `s`; for a function of type
  `robj *` the value is `some a`, or `none` when the C function hands back no determinate
  pointer (no `return` statement was executed, or an unassigned local was returned);
* `panic m s`: `serverPanic` / `serverAssert` stopped the process in state `s`;
* `undefined`: the C text has no defined behaviour (an invalid pointer was
  dereferenced, or a call lacks its arguments). -/
inductive Outcome (α : Type) where
  | ret (v : α) (s : State)
  | panic (msg : String) (s : State)
  | undefined
deriving DecidableEq, Repr

/-- The allocator `zmalloc`: a new block at the next free address.  Exhaustion is fatal inside the
allocator and is not modelled. -/
def zmalloc (s : State) (b : Block) : Addr × State :=
  (s.heap.length, { s with heap := s.heap ++ [{ block := b, frees := 0 }] })

/-- The block at `a`, when `a` is allocated and has not been released. -/
def liveBlock (s : State) (a : Addr) : Option Block :=
  match s.heap[a]? with
  | some c => if c.frees = 0 then some c.block else none
  | none => none

/-- Dereference of an `robj *`. -/
def getObj (s : State) (a : Addr) : Option Robj :=
  match liveBlock s a with
  | some (.robj o) => some o
  | some (.embstr o _ _ _ _) => some o
  | _ => none

/-- Apply `f` to the header of the block `b`, if it has one. -/
def Block.mapObj (f : Robj → Robj) : Block → Block
  | .robj o => .robj (f o)
  | .embstr o len alloc flags buf => .embstr (f o) len alloc flags buf
  | b => b

/-- The list `l` with `f` applied to the cell at index `k` (unchanged when there is none). -/
def modCell : List Cell → Nat → (Cell → Cell) → List Cell
  | [], _, _ => []
  | x :: l, 0, f => f x :: l
  | x :: l, k + 1, f => x :: modCell l k f

/-- A store to the cell at `a` (no effect when `a` is not allocated). -/
def updCell (s : State) (a : Addr) (f : Cell → Cell) : State :=
  { s with heap := modCell s.heap a f }

/-- A store to fields of the `robj` at `a`. -/
def updObj (s : State) (a : Addr) (f : Robj → Robj) : State :=
  updCell s a (fun c => { c with block := c.block.mapObj f })

/-- Release of the block at `a`: its release count goes up by one. -/
def release (s : State) (a : Addr) : State :=
  updCell s a (fun c => { c with frees := c.frees + 1 })

/-- Modelled from the spec: `LRU_CLOCK()`, the current coarse clock. -/
def LRU_CLOCK (s : State) : Nat := s.lruclock

/-! ## Collaborators (sds, quicklist, ziplist, intset, dict, skiplist) -/

/-- The bytes that `memcpy(dst, src, len)` stores: the first `len` bytes at `src`.  When the
source is shorter than `len` the C read leaves the source object; those bytes are 0 here. -/
def memcpy (src : List UInt8) (len : Nat) : List UInt8 :=
  src.take len ++ List.replicate (len - src.length) 0

/-- The content that `sdsnewlen` gives a new string: the bytes at `init`, or zero bytes
for a null `init`. -/
def sdsinit : Option (List UInt8) → Nat → List UInt8
  | some b, n => memcpy b n
  | none, n => List.replicate n 0

/-- Modelled from the spec: `sdsnewlen(init, initlen)` of the sds library, which is not in
the sources.  It allocates an sds string of length `initlen` holding the bytes at `init`
(zero bytes for a null `init`) followed by the terminator. -/
def sdsnewlen (s : State) (init : Option (List UInt8)) (initlen : Nat) : Addr × State :=
  zmalloc s (.sds initlen (sdsinit init initlen ++ [0]))

/-- Modelled from the spec: `sdslen(p)` of the sds library: the length recorded in the
header in front of the buffer that `p` addresses. -/
def sdslen (s : State) : Ptr → Option Nat
  | .ref a => match liveBlock s a with
    | some (.sds len _) => some len
    | _ => none
  | .buf a => match liveBlock s a with
    | some (.embstr _ len _ _ _) => some len
    | _ => none
  | _ => none

/-- The bytes stored in the sds buffer that `p` addresses (terminator included). -/
def sdsbuf (s : State) : Ptr → Option (List UInt8)
  | .ref a => match liveBlock s a with
    | some (.sds _ buf) => some buf
    | _ => none
  | .buf a => match liveBlock s a with
    | some (.embstr _ _ _ _ buf) => some buf
    | _ => none
  | _ => none

/-- Modelled from the spec: the decimal text that `sdsfromlonglong` produces ("the decimal
text form"): the characters of the decimal rendering of the integer, as bytes. -/
def ll2string (v : Int) : List UInt8 :=
  (toString v).toList.map (fun c => UInt8.ofNat c.toNat)

/-- Modelled from the spec: `sdsfromlonglong(value)` of the sds library: a new sds string
holding the decimal text of `value`. -/
def sdsfromlonglong (s : State) (value : Int) : Addr × State :=
  sdsnewlen s (some (ll2string value)) (ll2string value).length

/-- Modelled from the spec: `sdsfree(p)` releases the sds string at `p`; a null `p` is
accepted and ignored. -/
def sdsfree (s : State) : Ptr → Outcome Unit
  | .null => .ret () s
  | .ref a => match liveBlock s a with
    | some (.sds _ _) => .ret () (release s a)
    | _ => .undefined
  | _ => .undefined

/-- The function `zfree(p)` releases the block that starts at `p`; a null `p` is ignored. -/
def zfree (s : State) : Ptr → Outcome Unit
  | .null => .ret () s
  | .ref a => match liveBlock s a with
    | some _ => .ret () (release s a)
    | none => .undefined
  | _ => .undefined

/-- Modelled from the spec: `quicklistCreate()`, collaborator `create_empty`. -/
def quicklistCreate (s : State) : Addr × State := zmalloc s .quicklist

/-- Modelled from the spec: `ziplistNew()`, collaborator `create_empty`. -/
def ziplistNew (s : State) : Addr × State := zmalloc s .ziplist

/-- Modelled from the spec: `intsetNew()`, collaborator `create_empty`. -/
def intsetNew (s : State) : Addr × State := zmalloc s .intset

/-- Modelled from the spec: `dictCreate(type, NULL)`, collaborator `create_empty`. -/
def dictCreate (s : State) (type : DictType) : Addr × State := zmalloc s (.dict type)

/-- Modelled from the spec: `zslCreate()`, collaborator `create_empty`. -/
def zslCreate (s : State) : Addr × State := zmalloc s .zskiplist

/-- Modelled from the spec: `quicklistRelease(p)`, collaborator `release`. -/
def quicklistRelease (s : State) : Ptr → Outcome Unit
  | .ref a => match liveBlock s a with
    | some .quicklist => .ret () (release s a)
    | _ => .undefined
  | _ => .undefined

/-- Modelled from the spec: `dictRelease(p)`, collaborator `release`. -/
def dictRelease (s : State) : Ptr → Outcome Unit
  | .ref a => match liveBlock s a with
    | some (.dict _) => .ret () (release s a)
    | _ => .undefined
  | _ => .undefined

/-- Modelled from the spec: `zslFree(p)`, collaborator `release`. -/
def zslFree (s : State) : Ptr → Outcome Unit
  | .ref a => match liveBlock s a with
    | some .zskiplist => .ret () (release s a)
    | _ => .undefined
  | _ => .undefined

/-- A field of a `zset` read as a pointer value. -/
def fieldPtr : Option Addr → Option Ptr
  | some a => some (.ref a)
  | none => none

/-! ## `object.c` -/

/-- Source `createObject` (lines 40-50). -/
def createObject (s : State) (type : Nat) (ptr : Ptr) : Addr × State :=
  zmalloc s (.robj
    { type := type, encoding := OBJECT_ENCODING_RAW, ptr := ptr, refcount := 1,
      lru := LRU_CLOCK s })

/-- Source `createRawStringObject` (lines 54-57). -/
def createRawStringObject (s : State) (ptr : Option (List UInt8)) (len : Nat) : Addr × State :=
  let (p, s1) := sdsnewlen s ptr len
  createObject s1 OBJ_STRING (.ref p)

/-- Source `createEmbeddedStringObject` (lines 65-86).  The chunk is allocated and every
field is stored; the body then ends without a `return` statement, so the caller receives
no value (`none`).  `sh->len` and `sh->alloc` are one byte wide. -/
def createEmbeddedStringObject (s : State) (ptr : Option (List UInt8)) (len : Nat) :
    Option Addr × State :=
  let o := s.heap.length
  let hdr : Robj :=
    { type := OBJ_STRING, encoding := OBJ_ENCODING_EMBSTR, ptr := .buf o, refcount := 1,
      lru := LRU_CLOCK s }
  let buf : List UInt8 :=
    match ptr with
    | some b => memcpy b len ++ [0]
    | none => List.replicate (len + 1) 0
  (none, (zmalloc s (.embstr hdr (len % 256) (len % 256) SDS_TYPE_8 buf)).2)

/-- Source `createStringObject` (lines 95-101).  Above the limit the source calls
`createRawStringObject()` with neither of its two arguments: `undefined`. -/
def createStringObject (s : State) (ptr : Option (List UInt8)) (len : Nat) :
    Outcome (Option Addr) :=
  if len ≤ OBJ_ENCODING_EMBSTR_SIZE_LIMIT then
    let r := createEmbeddedStringObject s ptr len
    .ret r.1 r.2
  else
    .undefined

/-- Source `incrRefCount` (lines 322-324).  The source spells the field `refcoung`; see
`Robj`. -/
def incrRefCount (s : State) (o : Addr) : Outcome Unit :=
  match getObj s o with
  | some _ => .ret () (updObj s o (fun r => { r with refcount := r.refcount + 1 }))
  | none => .undefined

/-- Source `createStringObjectFromLongLong` (lines 103-119).  In the shared branch the
local `o` is never assigned, so the value returned is indeterminate (`none`). -/
def createStringObjectFromLongLong (p : Platform) (s : State) (value : Int) :
    Outcome (Option Addr) :=
  if 0 ≤ value ∧ value < p.OBJ_SHARED_INTEGERS then
    match s.integers[value.toNat]? with
    | none => .undefined
    | some a =>
      match incrRefCount s a with
      | .ret _ s1 => .ret none s1
      | .panic m s1 => .panic m s1
      | .undefined => .undefined
  else if p.LONG_MIN ≤ value ∧ value ≤ p.LONG_MAX then
    let (o, s1) := createObject s OBJ_STRING .null
    let s2 := updObj s1 o (fun r => { r with encoding := OBJ_ENCODING_INT })
    let s3 := updObj s2 o (fun r => { r with ptr := .long value })
    .ret (some o) s3
  else
    let (t, s1) := sdsfromlonglong s value
    let (o, s2) := createObject s1 OBJ_STRING (.ref t)
    .ret (some o) s2

/-- Source `dupStringObject` (lines 172-191). -/
def dupStringObject (s : State) (o : Addr) : Outcome (Option Addr) :=
  match getObj s o with
  | none => .undefined
  | some r =>
    if r.type ≠ OBJ_STRING then .panic "o->type == OBJ_STRING" s
    else if r.encoding = OBJ_ENCODING_RAW then
      match sdsbuf s r.ptr, sdslen s r.ptr with
      | some b, some n =>
        let (d, s1) := createRawStringObject s (some b) n
        .ret (some d) s1
      | _, _ => .undefined
    else if r.encoding = OBJ_ENCODING_EMBSTR then
      match sdsbuf s r.ptr, sdslen s r.ptr with
      | some b, some n =>
        let c := createEmbeddedStringObject s (some b) n
        .ret c.1 c.2
      | _, _ => .undefined
    else if r.encoding = OBJ_ENCODING_INT then
      let (d, s1) := createObject s OBJ_STRING .null
      let s2 := updObj s1 d (fun x => { x with encoding := OBJ_ENCODING_INT })
      let s3 := updObj s2 d (fun x => { x with ptr := r.ptr })
      .ret (some d) s3
    else .panic "Wrong encoding." s

/-- Source `createQuicklistObject` (lines 194-199). -/
def createQuicklistObject (s : State) : Addr × State :=
  let (l, s1) := quicklistCreate s
  let (o, s2) := createObject s1 OBJ_LIST (.ref l)
  (o, updObj s2 o (fun r => { r with encoding := OBJ_ENCODING_QUICKLIST }))

/-- Source `createZiplistObject` (lines 202-207). -/
def createZiplistObject (s : State) : Addr × State :=
  let (zl, s1) := ziplistNew s
  let (o, s2) := createObject s1 OBJ_LIST (.ref zl)
  (o, updObj s2 o (fun r => { r with encoding := OBJ_ENCODING_ZIPLIST }))

/-- Source `createSetObject` (lines 210-215). -/
def createSetObject (s : State) : Addr × State :=
  let (d, s1) := dictCreate s .setDictType
  let (o, s2) := createObject s1 OBJ_SET (.ref d)
  (o, updObj s2 o (fun r => { r with encoding := OBJ_ENCODING_HT }))

/-- Source `createIntsetObject` (lines 218-223). -/
def createIntsetObject (s : State) : Addr × State :=
  let (is, s1) := intsetNew s
  let (o, s2) := createObject s1 OBJ_SET (.ref is)
  (o, updObj s2 o (fun r => { r with encoding := OBJ_ENCODING_INTSET }))

/-- Source `createHashObject` (lines 226-231). -/
def createHashObject (s : State) : Addr × State :=
  let (zl, s1) := ziplistNew s
  let (o, s2) := createObject s1 OBJ_HASH (.ref zl)
  (o, updObj s2 o (fun r => { r with encoding := OBJ_ENCODING_ZIPLIST }))

/-- A store to the field `dict` of the `zset` pair at `zs`. -/
def setZsetDict (s : State) (zs d : Addr) : State :=
  updCell s zs (fun c =>
    { c with block := match c.block with
      | .zset _ zsl => .zset (some d) zsl
      | b => b })

/-- A store to the field `zsl` of the `zset` pair at `zs`. -/
def setZsetZsl (s : State) (zs l : Addr) : State :=
  updCell s zs (fun c =>
    { c with block := match c.block with
      | .zset d _ => .zset d (some l)
      | b => b })

/-- Source `createZsetObject` (lines 234-243). -/
def createZsetObject (s : State) : Addr × State :=
  let (zs, s1) := zmalloc s (.zset none none)
  let (d, s2) := dictCreate s1 .zsetDictType
  let s3 := setZsetDict s2 zs d
  let (l, s4) := zslCreate s3
  let s5 := setZsetZsl s4 zs l
  let (o, s6) := createObject s5 OBJ_ZSET (.ref zs)
  (o, updObj s6 o (fun r => { r with encoding := OBJ_ENCODING_SKIPLIST }))

/-- Source `createZsetZiplistObject` (lines 246-251). -/
def createZsetZiplistObject (s : State) : Addr × State :=
  let (zl, s1) := ziplistNew s
  let (o, s2) := createObject s1 OBJ_ZSET (.ref zl)
  (o, updObj s2 o (fun r => { r with encoding := OBJ_ENCODING_ZIPLIST }))

/-- Sequencing of two steps: the second runs only when the first returned. -/
def Outcome.andThen (x : Outcome Unit) (f : State → Outcome Unit) : Outcome Unit :=
  match x with
  | .ret _ s => f s
  | .panic m s => .panic m s
  | .undefined => .undefined

/-- Source `freeStringObject` (lines 259-265): only the RAW encoding has a case. -/
def freeStringObject (s : State) (o : Robj) : Outcome Unit :=
  if o.encoding = OBJ_ENCODING_RAW then sdsfree s o.ptr
  else .ret () s

/-- Source `freeListObject` (lines 268-274). -/
def freeListObject (s : State) (o : Robj) : Outcome Unit :=
  if o.encoding = OBJ_ENCODING_QUICKLIST then quicklistRelease s o.ptr
  else .panic "Unknown list encoding type" s

/-- Source `freeSetObject` (lines 277-288). -/
def freeSetObject (s : State) (o : Robj) : Outcome Unit :=
  if o.encoding = OBJ_ENCODING_HT then dictRelease s o.ptr
  else if o.encoding = OBJ_ENCODING_INTSET then zfree s o.ptr
  else .panic "Unknown set encoding type" s

/-- Source `freeZsetObject` (lines 291-306). -/
def freeZsetObject (s : State) (o : Robj) : Outcome Unit :=
  if o.encoding = OBJ_ENCODING_SKIPLIST then
    match o.ptr with
    | .ref zs =>
      match liveBlock s zs with
      | some (.zset d l) =>
        match fieldPtr d, fieldPtr l with
        | some pd, some pl =>
          (dictRelease s pd).andThen fun s1 =>
          (zslFree s1 pl).andThen fun s2 =>
          zfree s2 (.ref zs)
        | _, _ => .undefined
      | _ => .undefined
    | _ => .undefined
  else if o.encoding = OBJ_ENCODING_ZIPLIST then zfree s o.ptr
  else .panic "Unknown sorted set encoding" s

/-- Source `freeHashObject` (lines 309-320). -/
def freeHashObject (s : State) (o : Robj) : Outcome Unit :=
  if o.encoding = OBJ_ENCODING_HT then dictRelease s o.ptr
  else if o.encoding = OBJ_ENCODING_ZIPLIST then zfree s o.ptr
  else .panic "Unknown hash encoding type" s

/-- The `switch (o->type)` of `decrRefCount` (lines 329-336). -/
def freeByType (s : State) (o : Robj) : Outcome Unit :=
  if o.type = OBJ_STRING then freeStringObject s o
  else if o.type = OBJ_LIST then freeListObject s o
  else if o.type = OBJ_SET then freeSetObject s o
  else if o.type = OBJ_ZSET then freeZsetObject s o
  else if o.type = OBJ_HASH then freeHashObject s o
  else .panic "Unknown object type" s

/-- Source `decrRefCount` (lines 326-341). -/
def decrRefCount (s : State) (o : Addr) : Outcome Unit :=
  match getObj s o with
  | none => .undefined
  | some r =>
    if r.refcount ≤ 0 then .panic "decrRefCount against refcount <= 0" s
    else if r.refcount = 1 then
      (freeByType s r).andThen fun s1 => zfree s1 (.ref o)
    else .ret () (updObj s o (fun x => { x with refcount := x.refcount - 1 }))

/-- Source `decrRefCountVoid` (lines 346-348). -/
def decrRefCountVoid (s : State) (o : Addr) : Outcome Unit :=
  decrRefCount s o

/-- A `long double` argument as far as `createStringObjectFromLongDouble` tells values
apart: an infinity (`isinf(value)`, with `positive` for `value > 0`), or any other value,
given by the two texts that the C library renders for it: `fixed` for the format
`"%.17Lf"` and `general` for the format `"%.17Lg"`. -/
inductive LongDouble where
  | inf (positive : Bool)
  | num (fixed general : List UInt8)
deriving DecidableEq, Repr

/-- The C library's `snprintf(buf, size, fmt, value)` for a value whose rendering is
`text`: the bytes stored in `buf` (at most `size - 1` characters and the terminator) and
the returned length, which is the length of the whole rendering. -/
def snprintf (size : Nat) (text : List UInt8) : List UInt8 × Nat :=
  (text.take (size - 1) ++ [0], text.length)

/-- The test `strchr(buf, ch) != NULL` on the C string stored in `buf`. -/
def strchr (buf : List UInt8) (ch : UInt8) : Bool :=
  (buf.takeWhile (fun b => b != 0)).contains ch

/-- The loop `while (*p == '0') { p--; len--; }` of lines 151-154, started with `p` at
index `i` of `buf`: the index and the length at which it stops.  The result is `none` when
the loop reads outside the bytes stored in `buf`. -/
def stripZeros (buf : List UInt8) : Nat → Nat → Option (Nat × Nat)
  | 0, len =>
    match buf[0]? with
    | none => none
    | some b => if b = 48 then none else some (0, len)
  | i + 1, len =>
    match buf[i + 1]? with
    | none => none
    | some b => if b = 48 then stripZeros buf i (len - 1) else some (i + 1, len)

/-- The arguments `(buf, len)` that `createStringObjectFromLongDouble` (lines 127-160)
hands to `createStringObject`: the bytes stored in the local `char buf[256]` and `len`.
The result is `none` when the stripping code reads outside the stored bytes. -/
def longDoubleArgs (value : LongDouble) (humanfriendly : Int) : Option (List UInt8 × Nat) :=
  match value with
  | .inf true => some ([105, 110, 102], 3)
  | .inf false => some ([45, 105, 110, 102], 4)
  | .num fixed general =>
    if humanfriendly ≠ 0 then
      let r := snprintf 256 fixed
      if strchr r.1 46 then
        if r.2 = 0 then none
        else
          match stripZeros r.1 (r.2 - 1) r.2 with
          | none => none
          | some (i, len) =>
            match r.1[i]? with
            | none => none
            | some b => some (r.1, if b = 46 then len - 1 else len)
      else some r
    else some (snprintf 256 general)

/-- The text that a call `createStringObject(buf, len)` is given: the first `len` bytes at
`buf`, provided that many bytes are stored there. -/
def handedText : Option (List UInt8 × Nat) → Option (List UInt8)
  | some (buf, len) => if len ≤ buf.length then some (buf.take len) else none
  | none => none

/-- Source `createStringObjectFromLongDouble` (lines 127-161). -/
def createStringObjectFromLongDouble (s : State) (value : LongDouble) (humanfriendly : Int) :
    Outcome (Option Addr) :=
  match longDoubleArgs value humanfriendly with
  | none => .undefined
  | some (buf, len) => createStringObject s (some buf) len

/-- The text of the claim on human-friendly mode: the rendering with integer part
`intPart` and fractional digits `frac`, with the trailing `'0'` characters of the
fractional part removed and, if no fractional digit remains, without the `'.'`. -/
def strippedText (intPart frac : List UInt8) : List UInt8 :=
  if frac.rdropWhile (fun b => b == 48) = [] then intPart
  else intPart ++ [46] ++ frac.rdropWhile (fun b => b == 48)

/-- The ASCII bytes of a string. -/
def ascii (t : String) : List UInt8 := t.toList.map (fun ch => UInt8.ofNat ch.toNat)

/-- The 302 decimal digits of 2^1000, a value that `long double` represents exactly. -/
def digitsPow1000 : List UInt8 :=
  ascii
   ("1071508607186267320948425049060001810561404811705533607443750388370351051124" ++
    "9361224931983788156958581275946729175531468251871452856923140435984577574698" ++
    "5748039345677748242309854210746050623711418779541821530464749835819412673987" ++
    "67559165543946077062914571196477686542167660429831652624386837205668069376")

/-- The `"%.17Lf"` rendering of 2^1000: its digits, the point and 17 zeros. -/
def fixedPow1000 : List UInt8 :=
  digitsPow1000 ++ [46] ++ List.replicate 17 48

/-- The value 2^1000 with its two renderings. -/
def pow1000 : LongDouble :=
  .num fixedPow1000 (ascii "1.0715086071862673e+301")

/-! ## Type guard -/

/-- Modelled from the spec: the reply object `shared.wrongtypeerr` of `server.c`, which is
not in the sources; the comment above `checkType` gives its content. -/
def shared.wrongtypeerr : String :=
  "-WRONGTYPE Operation against a key holding the wrong kind of value"

/-- Modelled from the spec: the reply state of a `client` (declared in `server.h`): the
replies queued for the client, oldest first. -/
structure Client where
  reply : List String
deriving DecidableEq, Repr

/-- Modelled from the spec: `addReply(c, obj)` of the networking layer, which is not in
the sources: it queues the reply `obj` for the client `c` (the comment above `checkType`:
on a mismatch a warning is sent to the client). -/
def addReply (c : Client) (obj : String) : Client :=
  { c with reply := c.reply ++ [obj] }

/-- Source `checkType` (lines 366-372).  The result is the returned `int` together with the
client after the call. -/
def checkType (c : Client) (s : State) (o : Addr) (type : Int) : Outcome (Int × Client) :=
  match getObj s o with
  | none => .undefined
  | some r =>
    if (r.type : Int) ≠ type then .ret (1, addReply c shared.wrongtypeerr) s
    else .ret (0, c) s

/-! ## Sequences of reference-count calls -/

/-- A call that a holder of a reference makes on a Value: `incrRefCount(o)` or
`decrRefCount(o)`. -/
inductive RefOp where
  | incr
  | decr
deriving DecidableEq, Repr

/-- One call of `RefOp` on the Value at `o`. -/
def applyRefOp (s : State) (o : Addr) : RefOp → Outcome Unit
  | .incr => incrRefCount s o
  | .decr => decrRefCount s o

/-- A sequence of calls on the Value at `o`, in order; a panic or an undefined step ends
the run. -/
def runRefOps (s : State) (o : Addr) : List RefOp → Outcome Unit
  | [] => .ret () s
  | op :: ops => (applyRefOp s o op).andThen (fun s1 => runRefOps s1 o ops)

/-- A call that a caller makes on the pool singleton for `v`:
`createStringObjectFromLongLong(v)`, `incrRefCount` or `decrRefCount`. -/
inductive PoolOp where
  | create
  | incr
  | decr
deriving DecidableEq, Repr

/-- One call of `PoolOp`, for the value `v` whose singleton is at `o`. -/
def applyPoolOp (p : Platform) (s : State) (v : Int) (o : Addr) : PoolOp → Outcome Unit
  | .create =>
    match createStringObjectFromLongLong p s v with
    | .ret _ s1 => .ret () s1
    | .panic m s1 => .panic m s1
    | .undefined => .undefined
  | .incr => incrRefCount s o
  | .decr => decrRefCount s o

/-- A sequence of calls on the pool singleton, in order. -/
def runPoolOps (p : Platform) (s : State) (v : Int) (o : Addr) : List PoolOp → Outcome Unit
  | [] => .ret () s
  | op :: ops => (applyPoolOp p s v o op).andThen (fun s1 => runPoolOps p s1 v o ops)

/-- Starting from refcount `n`, every `decrRefCount` of the sequence is made when the
refcount is at least 2: callers only give back references that were taken before. -/
def releasesOnlyTaken (n : Int) : List PoolOp → Bool
  | [] => true
  | .decr :: ops => decide (2 ≤ n) && releasesOnlyTaken (n - 1) ops
  | .create :: ops => releasesOnlyTaken (n + 1) ops
  | .incr :: ops => releasesOnlyTaken (n + 1) ops

/-- The refcount after the sequence, starting from `n`: plus one for each
`createStringObjectFromLongLong` and `incrRefCount`, minus one for each `decrRefCount`. -/
def countAfter (n : Int) : List PoolOp → Int
  | [] => n
  | .decr :: ops => countAfter (n - 1) ops
  | .create :: ops => countAfter (n + 1) ops
  | .incr :: ops => countAfter (n + 1) ops

/-! ## Values that own their payload -/

/-- The pointer `p` addresses a live block of the kind `k`. -/
def pointsTo (s : State) (p : Ptr) (k : Block → Bool) : Bool :=
  match p with
  | .ref t =>
    match liveBlock s t with
    | some b => k b
    | none => false
  | _ => false

/-- The block is an sds string. -/
def isSds : Block → Bool
  | .sds _ _ => true
  | _ => false

/-- The block is a quicklist. -/
def isQuicklist : Block → Bool
  | .quicklist => true
  | _ => false

/-- The block is a dict. -/
def isDict : Block → Bool
  | .dict _ => true
  | _ => false

/-- The block is a skiplist. -/
def isZskiplist : Block → Bool
  | .zskiplist => true
  | _ => false

/-- The pointer `p` is null or addresses a live block other than the header at `o`: a
buffer that `zfree(p)` may release before `zfree(o)`. -/
def ownsBuffer (s : State) (o : Addr) (p : Ptr) : Bool :=
  match p with
  | .null => true
  | .ref t => t != o && (liveBlock s t).isSome
  | _ => false

/-- The pointer `p` addresses a live `zset` pair whose two fields address a live dict and a
live skiplist. -/
def ownsZset (s : State) (p : Ptr) : Bool :=
  match p with
  | .ref zs =>
    match liveBlock s zs with
    | some (.zset (some d) (some l)) => pointsTo s (.ref d) isDict && pointsTo s (.ref l) isZskiplist
    | _ => false
  | _ => false

/-- The Value `r`, whose header is at `o`, has a type and an encoding for which its
destructor has a case, and its payload pointer addresses what that case releases: a live
sds string (or null) for a RAW String, a live quicklist for a List, a live dict, a live
intset or ziplist buffer, or a complete `zset` pair for the collections.  A String with
any other encoding tag owns nothing, since `freeStringObject` releases nothing for it. -/
def ownsPayload (s : State) (o : Addr) (r : Robj) : Bool :=
  if r.type = OBJ_STRING then
    if r.encoding = OBJ_ENCODING_RAW then r.ptr == .null || pointsTo s r.ptr isSds
    else true
  else if r.type = OBJ_LIST then
    decide (r.encoding = OBJ_ENCODING_QUICKLIST) && pointsTo s r.ptr isQuicklist
  else if r.type = OBJ_SET then
    if r.encoding = OBJ_ENCODING_HT then pointsTo s r.ptr isDict
    else if r.encoding = OBJ_ENCODING_INTSET then ownsBuffer s o r.ptr
    else false
  else if r.type = OBJ_ZSET then
    if r.encoding = OBJ_ENCODING_SKIPLIST then ownsZset s r.ptr
    else if r.encoding = OBJ_ENCODING_ZIPLIST then ownsBuffer s o r.ptr
    else false
  else if r.type = OBJ_HASH then
    if r.encoding = OBJ_ENCODING_HT then pointsTo s r.ptr isDict
    else if r.encoding = OBJ_ENCODING_ZIPLIST then ownsBuffer s o r.ptr
    else false
  else false

/-- The destructor of the Value's type has no case for its encoding, or no destructor
exists for its type: the branches of `freeListObject`, `freeSetObject`, `freeZsetObject`,
`freeHashObject` and `decrRefCount` that call `serverPanic`. -/
def destructorRejects (r : Robj) : Bool :=
  if r.type = OBJ_STRING then false
  else if r.type = OBJ_LIST then decide (r.encoding ≠ OBJ_ENCODING_QUICKLIST)
  else if r.type = OBJ_SET then
    decide (r.encoding ≠ OBJ_ENCODING_HT ∧ r.encoding ≠ OBJ_ENCODING_INTSET)
  else if r.type = OBJ_ZSET then
    decide (r.encoding ≠ OBJ_ENCODING_SKIPLIST ∧ r.encoding ≠ OBJ_ENCODING_ZIPLIST)
  else if r.type = OBJ_HASH then
    decide (r.encoding ≠ OBJ_ENCODING_HT ∧ r.encoding ≠ OBJ_ENCODING_ZIPLIST)
  else true

/-! ## Example states -/

/-- A heap holding a List Value whose refcount is 0 and its quicklist. -/
def zeroRefState : State :=
  { heap := [⟨.robj ⟨OBJ_LIST, OBJ_ENCODING_QUICKLIST, 3, 0, .ref 1⟩, 0⟩, ⟨.quicklist, 0⟩],
    integers := [], lruclock := 9 }

/-- A heap holding a ziplist and a Hash Value with two owners. -/
def sharedHashState : State :=
  { heap := [⟨.ziplist, 0⟩, ⟨.robj ⟨OBJ_HASH, OBJ_ENCODING_ZIPLIST, 3, 2, .ref 0⟩, 0⟩],
    integers := [], lruclock := 9 }

/-- A process state with nothing allocated and an empty pool. -/
def emptyState : State := { heap := [], integers := [], lruclock := 9 }

/-- A build where `long` has 64 bits and the pool holds 10000 integers. -/
def lp64 : Platform :=
  { OBJ_SHARED_INTEGERS := 10000, LONG_MIN := -9223372036854775808,
    LONG_MAX := 9223372036854775807 }

/-- A build where `long` has 32 bits and the pool holds 10000 integers. -/
def ilp32 : Platform :=
  { OBJ_SHARED_INTEGERS := 10000, LONG_MIN := -2147483648, LONG_MAX := 2147483647 }

/-- A build with a pool of three integers (64-bit `long`). -/
def smallPool : Platform :=
  { OBJ_SHARED_INTEGERS := 3, LONG_MIN := -9223372036854775808,
    LONG_MAX := 9223372036854775807 }

/-- The state after start-up on `smallPool`: the singletons for 0, 1 and 2, each with the
pool's own reference. -/
def poolState : State :=
  { heap := [⟨.robj ⟨OBJ_STRING, OBJ_ENCODING_INT, 9, 1, .long 0⟩, 0⟩,
             ⟨.robj ⟨OBJ_STRING, OBJ_ENCODING_INT, 9, 1, .long 1⟩, 0⟩,
             ⟨.robj ⟨OBJ_STRING, OBJ_ENCODING_INT, 9, 1, .long 2⟩, 0⟩],
    integers := [0, 1, 2], lruclock := 9 }

/-- A heap holding the embedded string "hi" with three owners. -/
def embstrState : State :=
  { heap := [⟨.embstr ⟨OBJ_STRING, OBJ_ENCODING_EMBSTR, 9, 3, .buf 0⟩ 2 2 SDS_TYPE_8
               [104, 105, 0], 0⟩],
    integers := [], lruclock := 9 }

/-- A heap holding a dict and a String Value whose encoding tag is `OBJ_ENCODING_HT`. -/
def stringHtState : State :=
  { heap := [⟨.dict .setDictType, 0⟩, ⟨.robj ⟨OBJ_STRING, OBJ_ENCODING_HT, 9, 1, .ref 0⟩, 0⟩],
    integers := [], lruclock := 9 }

/-- Round trip of a constructor and a release: the constructor took `s` to `s1` by
allocating `n` blocks, all live in `s1`; in `s2` each of these blocks has been released
exactly once, their contents are as in `s1`, and the blocks of `s` are untouched. -/
def ReleasedOnce (s s1 s2 : State) (n : Nat) : Prop :=
  ∃ cells1 cells2, s1.heap = s.heap ++ cells1 ∧ s2.heap = s.heap ++ cells2 ∧
    cells1.length = n ∧ cells2.length = n ∧
    (∀ c ∈ cells1, c.frees = 0) ∧ (∀ c ∈ cells2, c.frees = 1) ∧
    cells2.map Cell.block = cells1.map Cell.block

end RedisObject

namespace RedisObject

/-! ## Heap lemmas -/

theorem getElem?_modCell (l : List Cell) (k : Nat) (f : Cell → Cell) (b : Nat) :
    (modCell l k f)[b]? = if b = k then (l[k]?).map f else l[b]? := by
  induction l generalizing k b with
  | nil => cases k <;> simp [modCell]
  | cons x l ih =>
    cases k with
    | zero =>
      cases b with
      | zero => simp [modCell]
      | succ b => simp [modCell]
    | succ k =>
      cases b with
      | zero => simp [modCell]
      | succ b => simp [modCell, ih]

theorem length_modCell (l : List Cell) (k : Nat) (f : Cell → Cell) :
    (modCell l k f).length = l.length := by
  induction l generalizing k with
  | nil => cases k <;> simp [modCell]
  | cons x l ih => cases k <;> simp [modCell, ih]

theorem modCell_append_add (h l : List Cell) (k : Nat) (f : Cell → Cell) :
    modCell (h ++ l) (h.length + k) f = h ++ modCell l k f := by
  induction h with
  | nil => simp
  | cons x h ih =>
    have e : (x :: h).length + k = (h.length + k) + 1 := by simp; omega
    rw [e]
    simp [modCell, ih]

theorem modCell_append_length (h l : List Cell) (f : Cell → Cell) :
    modCell (h ++ l) h.length f = h ++ modCell l 0 f := by
  simpa using modCell_append_add h l 0 f

@[simp]
theorem modCell_cons_zero (x : Cell) (l : List Cell) (f : Cell → Cell) :
    modCell (x :: l) 0 f = f x :: l := rfl

@[simp]
theorem modCell_cons_succ (x : Cell) (l : List Cell) (k : Nat) (f : Cell → Cell) :
    modCell (x :: l) (k + 1) f = x :: modCell l k f := rfl

theorem heap_updCell (s : State) (a : Addr) (f : Cell → Cell) (b : Addr) :
    (updCell s a f).heap[b]? = if b = a then (s.heap[a]?).map f else s.heap[b]? :=
  getElem?_modCell s.heap a f b

theorem length_updCell (s : State) (a : Addr) (f : Cell → Cell) :
    (updCell s a f).heap.length = s.heap.length :=
  length_modCell s.heap a f

theorem integers_updCell (s : State) (a : Addr) (f : Cell → Cell) :
    (updCell s a f).integers = s.integers := rfl

theorem lruclock_updCell (s : State) (a : Addr) (f : Cell → Cell) :
    (updCell s a f).lruclock = s.lruclock := rfl

theorem getElem?_append_add {α : Type} (h l : List α) (k : Nat) :
    (h ++ l)[h.length + k]? = l[k]? := by
  rw [List.getElem?_append_right (Nat.le_add_right _ _)]
  simp

theorem getElem?_append_length {α : Type} (h l : List α) :
    (h ++ l)[h.length]? = l[0]? := by
  simpa using getElem?_append_add h l 0

@[simp]
theorem liveBlock_append_add (h l : List Cell) (i : List Addr) (c k : Nat) :
    liveBlock ⟨h ++ l, i, c⟩ (h.length + k) = liveBlock ⟨l, i, c⟩ k := by
  simp only [liveBlock, getElem?_append_add]

@[simp]
theorem liveBlock_append_length (h l : List Cell) (i : List Addr) (c : Nat) :
    liveBlock ⟨h ++ l, i, c⟩ h.length = liveBlock ⟨l, i, c⟩ 0 := by
  simp only [liveBlock, getElem?_append_length]

@[simp]
theorem liveBlock_cons_zero (x : Cell) (l : List Cell) (i : List Addr) (c : Nat) :
    liveBlock ⟨x :: l, i, c⟩ 0 = if x.frees = 0 then some x.block else none := by
  simp only [liveBlock, List.getElem?_cons_zero]

@[simp]
theorem liveBlock_cons_succ (x : Cell) (l : List Cell) (i : List Addr) (c k : Nat) :
    liveBlock ⟨x :: l, i, c⟩ (k + 1) = liveBlock ⟨l, i, c⟩ k := by
  simp only [liveBlock, List.getElem?_cons_succ]

@[simp]
theorem updCell_append_add (h l : List Cell) (i : List Addr) (c k : Nat) (f : Cell → Cell) :
    updCell ⟨h ++ l, i, c⟩ (h.length + k) f = ⟨h ++ modCell l k f, i, c⟩ := by
  simp only [updCell, modCell_append_add]

@[simp]
theorem updCell_append_length (h l : List Cell) (i : List Addr) (c : Nat) (f : Cell → Cell) :
    updCell ⟨h ++ l, i, c⟩ h.length f = ⟨h ++ modCell l 0 f, i, c⟩ := by
  simp only [updCell, modCell_append_length]

theorem getObj_cell (s : State) (a : Addr) (r : Robj) (h : getObj s a = some r) :
    ∃ c, s.heap[a]? = some c ∧ c.frees = 0 ∧ c.block.mapObj (fun _ => r) = c.block ∧
      ∀ f, c.block.mapObj f = c.block.mapObj (fun _ => f r) := by
  unfold getObj liveBlock at h
  cases hc : s.heap[a]? with
  | none => simp [hc] at h
  | some c =>
    refine ⟨c, rfl, ?_⟩
    by_cases hf : c.frees = 0
    · simp only [hc, hf, if_true] at h
      cases hb : c.block <;> simp [hb] at h <;> subst h <;> simp [hf, Block.mapObj]
    · simp [hc, hf] at h

theorem getObj_updObj_same (s : State) (a : Addr) (r : Robj) (f : Robj → Robj)
    (h : getObj s a = some r) : getObj (updObj s a f) a = some (f r) := by
  obtain ⟨c, hc, hf, _, _⟩ := getObj_cell s a r h
  unfold getObj liveBlock at h ⊢
  unfold updObj
  rw [heap_updCell]
  simp only [hc, hf, if_true, Option.map_some'] at h ⊢
  cases hb : c.block <;> simp [hb, Block.mapObj] at h ⊢
  · exact congrArg f h
  · exact congrArg f h

theorem getObj_updObj_ne (s : State) (a b : Addr) (f : Robj → Robj) (hb : b ≠ a) :
    getObj (updObj s a f) b = getObj s b := by
  unfold getObj liveBlock updObj
  rw [heap_updCell]
  simp [hb]

theorem liveBlock_append_lt (h l : List Cell) (i : List Addr) (c b : Nat)
    (hb : b < h.length) : liveBlock ⟨h ++ l, i, c⟩ b = liveBlock ⟨h, i, c⟩ b := by
  simp only [liveBlock, List.getElem?_append_left hb]

theorem memcpy_length (b : List UInt8) : memcpy b b.length = b := by
  simp [memcpy]

theorem createObject_mk (h : List Cell) (i : List Addr) (c t : Nat) (p : Ptr) :
    createObject ⟨h, i, c⟩ t p =
      (h.length, ⟨h ++ [⟨.robj ⟨t, OBJ_ENCODING_RAW, c, 1, p⟩, 0⟩], i, c⟩) := rfl

theorem createRawStringObject_mk (h : List Cell) (i : List Addr) (c : Nat)
    (b : Option (List UInt8)) (len : Nat) :
    createRawStringObject ⟨h, i, c⟩ b len =
      (h.length + 1, ⟨h ++ [⟨.sds len (sdsinit b len ++ [0]), 0⟩,
        ⟨.robj ⟨OBJ_STRING, OBJ_ENCODING_RAW, c, 1, .ref h.length⟩, 0⟩], i, c⟩) := by
  simp [createRawStringObject, sdsnewlen, zmalloc, createObject_mk]

theorem createQuicklistObject_mk (h : List Cell) (i : List Addr) (c : Nat) :
    createQuicklistObject ⟨h, i, c⟩ =
      (h.length + 1, ⟨h ++ [⟨.quicklist, 0⟩,
        ⟨.robj ⟨OBJ_LIST, OBJ_ENCODING_QUICKLIST, c, 1, .ref h.length⟩, 0⟩], i, c⟩) := by
  simp [createQuicklistObject, quicklistCreate, zmalloc, createObject_mk, updObj,
    updCell_append_add, modCell_cons_zero, modCell_cons_succ, Block.mapObj]

theorem createZiplistObject_mk (h : List Cell) (i : List Addr) (c : Nat) :
    createZiplistObject ⟨h, i, c⟩ =
      (h.length + 1, ⟨h ++ [⟨.ziplist, 0⟩,
        ⟨.robj ⟨OBJ_LIST, OBJ_ENCODING_ZIPLIST, c, 1, .ref h.length⟩, 0⟩], i, c⟩) := by
  simp [createZiplistObject, ziplistNew, zmalloc, createObject_mk, updObj,
    updCell_append_add, modCell_cons_zero, modCell_cons_succ, Block.mapObj]

theorem createSetObject_mk (h : List Cell) (i : List Addr) (c : Nat) :
    createSetObject ⟨h, i, c⟩ =
      (h.length + 1, ⟨h ++ [⟨.dict .setDictType, 0⟩,
        ⟨.robj ⟨OBJ_SET, OBJ_ENCODING_HT, c, 1, .ref h.length⟩, 0⟩], i, c⟩) := by
  simp [createSetObject, dictCreate, zmalloc, createObject_mk, updObj,
    updCell_append_add, modCell_cons_zero, modCell_cons_succ, Block.mapObj]

theorem createIntsetObject_mk (h : List Cell) (i : List Addr) (c : Nat) :
    createIntsetObject ⟨h, i, c⟩ =
      (h.length + 1, ⟨h ++ [⟨.intset, 0⟩,
        ⟨.robj ⟨OBJ_SET, OBJ_ENCODING_INTSET, c, 1, .ref h.length⟩, 0⟩], i, c⟩) := by
  simp [createIntsetObject, intsetNew, zmalloc, createObject_mk, updObj,
    updCell_append_add, modCell_cons_zero, modCell_cons_succ, Block.mapObj]

theorem createHashObject_mk (h : List Cell) (i : List Addr) (c : Nat) :
    createHashObject ⟨h, i, c⟩ =
      (h.length + 1, ⟨h ++ [⟨.ziplist, 0⟩,
        ⟨.robj ⟨OBJ_HASH, OBJ_ENCODING_ZIPLIST, c, 1, .ref h.length⟩, 0⟩], i, c⟩) := by
  simp [createHashObject, ziplistNew, zmalloc, createObject_mk, updObj,
    updCell_append_add, modCell_cons_zero, modCell_cons_succ, Block.mapObj]

theorem createZsetZiplistObject_mk (h : List Cell) (i : List Addr) (c : Nat) :
    createZsetZiplistObject ⟨h, i, c⟩ =
      (h.length + 1, ⟨h ++ [⟨.ziplist, 0⟩,
        ⟨.robj ⟨OBJ_ZSET, OBJ_ENCODING_ZIPLIST, c, 1, .ref h.length⟩, 0⟩], i, c⟩) := by
  simp [createZsetZiplistObject, ziplistNew, zmalloc, createObject_mk, updObj,
    updCell_append_add, modCell_cons_zero, modCell_cons_succ, Block.mapObj]

theorem createZsetObject_mk (h : List Cell) (i : List Addr) (c : Nat) :
    createZsetObject ⟨h, i, c⟩ =
      (h.length + 3,
        ⟨h ++ [⟨.zset (some (h.length + 1)) (some (h.length + 2)), 0⟩,
          ⟨.dict .zsetDictType, 0⟩, ⟨.zskiplist, 0⟩,
          ⟨.robj ⟨OBJ_ZSET, OBJ_ENCODING_SKIPLIST, c, 1, .ref h.length⟩, 0⟩], i, c⟩) := by
  simp [createZsetObject, zmalloc, dictCreate, zslCreate, createObject_mk, setZsetDict,
    setZsetZsl, updObj, updCell_append_add, updCell_append_length, modCell_cons_zero,
    modCell_cons_succ, Block.mapObj]

theorem createStringObjectFromLongLong_int (p : Platform) (h : List Cell) (i : List Addr)
    (c : Nat) (v : Int) (hv : v < 0 ∨ (p.OBJ_SHARED_INTEGERS : Int) ≤ v)
    (hl : p.LONG_MIN ≤ v ∧ v ≤ p.LONG_MAX) :
    createStringObjectFromLongLong p ⟨h, i, c⟩ v =
      .ret (some h.length)
        ⟨h ++ [⟨.robj ⟨OBJ_STRING, OBJ_ENCODING_INT, c, 1, .long v⟩, 0⟩], i, c⟩ := by
  have hs : ¬ (0 ≤ v ∧ v < (p.OBJ_SHARED_INTEGERS : Int)) := by omega
  simp [createStringObjectFromLongLong, hs, hl, createObject_mk, updObj,
    updCell_append_length, modCell_cons_zero, Block.mapObj]

theorem createStringObjectFromLongLong_raw (p : Platform) (h : List Cell) (i : List Addr)
    (c : Nat) (v : Int) (hv : v < 0 ∨ (p.OBJ_SHARED_INTEGERS : Int) ≤ v)
    (hl : ¬ (p.LONG_MIN ≤ v ∧ v ≤ p.LONG_MAX)) :
    createStringObjectFromLongLong p ⟨h, i, c⟩ v =
      .ret (some (h.length + 1))
        ⟨h ++ [⟨.sds (ll2string v).length (ll2string v ++ [0]), 0⟩,
          ⟨.robj ⟨OBJ_STRING, OBJ_ENCODING_RAW, c, 1, .ref h.length⟩, 0⟩], i, c⟩ := by
  have hs : ¬ (0 ≤ v ∧ v < (p.OBJ_SHARED_INTEGERS : Int)) := by omega
  simp only [createStringObjectFromLongLong, hs, hl, if_false, sdsfromlonglong, sdsnewlen,
    sdsinit, memcpy_length, zmalloc, createObject_mk]
  simp

theorem releasedOnce_mk (h l1 l2 : List Cell) (i1 i2 i3 : List Addr) (c1 c2 c3 n : Nat)
    (h1 : l1.length = n) (h2 : l2.length = n) (h3 : ∀ c ∈ l1, c.frees = 0)
    (h4 : ∀ c ∈ l2, c.frees = 1) (h5 : l2.map Cell.block = l1.map Cell.block) :
    ReleasedOnce ⟨h, i1, c1⟩ ⟨h ++ l1, i2, c2⟩ ⟨h ++ l2, i3, c3⟩ n :=
  ⟨l1, l2, rfl, rfl, h1, h2, h3, h4, h5⟩

theorem decrRefCount_createRawStringObject (s : State) (b : Option (List UInt8)) (len : Nat) :
    ∃ s2, decrRefCount (createRawStringObject s b len).2 (createRawStringObject s b len).1
        = .ret () s2 ∧
      ReleasedOnce s (createRawStringObject s b len).2 s2 2 := by
  obtain ⟨h, i, c⟩ := s
  refine ⟨⟨h ++ [⟨.sds len (sdsinit b len ++ [0]), 1⟩,
    ⟨.robj ⟨OBJ_STRING, OBJ_ENCODING_RAW, c, 1, .ref h.length⟩, 1⟩], i, c⟩, ?_, ?_⟩
  · simp [createRawStringObject_mk, decrRefCount, getObj, freeByType, freeStringObject,
      sdsfree, zfree, release, Outcome.andThen]
  · rw [createRawStringObject_mk]
    exact releasedOnce_mk _ _ _ _ _ _ _ _ _ _ (by simp) (by simp) (by simp) (by simp) (by simp)

theorem decrRefCount_createQuicklistObject (s : State) :
    ∃ s2, decrRefCount (createQuicklistObject s).2 (createQuicklistObject s).1 = .ret () s2 ∧
      ReleasedOnce s (createQuicklistObject s).2 s2 2 := by
  obtain ⟨h, i, c⟩ := s
  refine ⟨⟨h ++ [⟨.quicklist, 1⟩,
    ⟨.robj ⟨OBJ_LIST, OBJ_ENCODING_QUICKLIST, c, 1, .ref h.length⟩, 1⟩], i, c⟩, ?_, ?_⟩
  · simp [createQuicklistObject_mk, decrRefCount, getObj, freeByType, freeListObject,
      quicklistRelease, zfree, release, Outcome.andThen, OBJ_LIST, OBJ_STRING]
  · rw [createQuicklistObject_mk]
    exact releasedOnce_mk _ _ _ _ _ _ _ _ _ _ (by simp) (by simp) (by simp) (by simp) (by simp)

theorem decrRefCount_createSetObject (s : State) :
    ∃ s2, decrRefCount (createSetObject s).2 (createSetObject s).1 = .ret () s2 ∧
      ReleasedOnce s (createSetObject s).2 s2 2 := by
  obtain ⟨h, i, c⟩ := s
  refine ⟨⟨h ++ [⟨.dict .setDictType, 1⟩,
    ⟨.robj ⟨OBJ_SET, OBJ_ENCODING_HT, c, 1, .ref h.length⟩, 1⟩], i, c⟩, ?_, ?_⟩
  · simp [createSetObject_mk, decrRefCount, getObj, freeByType, freeSetObject,
      dictRelease, zfree, release, Outcome.andThen, OBJ_LIST, OBJ_STRING, OBJ_SET]
  · rw [createSetObject_mk]
    exact releasedOnce_mk _ _ _ _ _ _ _ _ _ _ (by simp) (by simp) (by simp) (by simp) (by simp)

theorem decrRefCount_createIntsetObject (s : State) :
    ∃ s2, decrRefCount (createIntsetObject s).2 (createIntsetObject s).1 = .ret () s2 ∧
      ReleasedOnce s (createIntsetObject s).2 s2 2 := by
  obtain ⟨h, i, c⟩ := s
  refine ⟨⟨h ++ [⟨.intset, 1⟩,
    ⟨.robj ⟨OBJ_SET, OBJ_ENCODING_INTSET, c, 1, .ref h.length⟩, 1⟩], i, c⟩, ?_, ?_⟩
  · simp [createIntsetObject_mk, decrRefCount, getObj, freeByType, freeSetObject,
      dictRelease, zfree, release, Outcome.andThen, OBJ_LIST, OBJ_STRING, OBJ_SET,
      OBJ_ENCODING_INTSET, OBJ_ENCODING_HT]
  · rw [createIntsetObject_mk]
    exact releasedOnce_mk _ _ _ _ _ _ _ _ _ _ (by simp) (by simp) (by simp) (by simp) (by simp)

theorem decrRefCount_createHashObject (s : State) :
    ∃ s2, decrRefCount (createHashObject s).2 (createHashObject s).1 = .ret () s2 ∧
      ReleasedOnce s (createHashObject s).2 s2 2 := by
  obtain ⟨h, i, c⟩ := s
  refine ⟨⟨h ++ [⟨.ziplist, 1⟩,
    ⟨.robj ⟨OBJ_HASH, OBJ_ENCODING_ZIPLIST, c, 1, .ref h.length⟩, 1⟩], i, c⟩, ?_, ?_⟩
  · simp [createHashObject_mk, decrRefCount, getObj, freeByType, freeHashObject,
      dictRelease, zfree, release, Outcome.andThen, OBJ_LIST, OBJ_STRING, OBJ_SET, OBJ_ZSET,
      OBJ_HASH, OBJ_ENCODING_ZIPLIST, OBJ_ENCODING_HT]
  · rw [createHashObject_mk]
    exact releasedOnce_mk _ _ _ _ _ _ _ _ _ _ (by simp) (by simp) (by simp) (by simp) (by simp)

theorem decrRefCount_createZsetZiplistObject (s : State) :
    ∃ s2, decrRefCount (createZsetZiplistObject s).2 (createZsetZiplistObject s).1
        = .ret () s2 ∧
      ReleasedOnce s (createZsetZiplistObject s).2 s2 2 := by
  obtain ⟨h, i, c⟩ := s
  refine ⟨⟨h ++ [⟨.ziplist, 1⟩,
    ⟨.robj ⟨OBJ_ZSET, OBJ_ENCODING_ZIPLIST, c, 1, .ref h.length⟩, 1⟩], i, c⟩, ?_, ?_⟩
  · simp [createZsetZiplistObject_mk, decrRefCount, getObj, freeByType, freeZsetObject,
      zfree, release, Outcome.andThen, OBJ_LIST, OBJ_STRING, OBJ_SET, OBJ_ZSET,
      OBJ_ENCODING_ZIPLIST, OBJ_ENCODING_SKIPLIST]
  · rw [createZsetZiplistObject_mk]
    exact releasedOnce_mk _ _ _ _ _ _ _ _ _ _ (by simp) (by simp) (by simp) (by simp) (by simp)

theorem decrRefCount_createZsetObject (s : State) :
    ∃ s2, decrRefCount (createZsetObject s).2 (createZsetObject s).1 = .ret () s2 ∧
      ReleasedOnce s (createZsetObject s).2 s2 4 := by
  obtain ⟨h, i, c⟩ := s
  refine ⟨⟨h ++ [⟨.zset (some (h.length + 1)) (some (h.length + 2)), 1⟩,
    ⟨.dict .zsetDictType, 1⟩, ⟨.zskiplist, 1⟩,
    ⟨.robj ⟨OBJ_ZSET, OBJ_ENCODING_SKIPLIST, c, 1, .ref h.length⟩, 1⟩], i, c⟩, ?_, ?_⟩
  · simp [createZsetObject_mk, decrRefCount, getObj, freeByType, freeZsetObject, fieldPtr,
      dictRelease, zslFree, zfree, release, Outcome.andThen, OBJ_LIST, OBJ_STRING, OBJ_SET,
      OBJ_ZSET]
  · rw [createZsetObject_mk]
    exact releasedOnce_mk _ _ _ _ _ _ _ _ _ _ (by simp) (by simp) (by simp) (by simp) (by simp)

theorem decrRefCount_createStringObjectFromLongLong (p : Platform) (s : State) (v : Int)
    (hv : v < 0 ∨ (p.OBJ_SHARED_INTEGERS : Int) ≤ v) :
    ∃ a s1 s2, createStringObjectFromLongLong p s v = .ret (some a) s1 ∧
      decrRefCount s1 a = .ret () s2 ∧
      ReleasedOnce s s1 s2 (if p.LONG_MIN ≤ v ∧ v ≤ p.LONG_MAX then 1 else 2) := by
  obtain ⟨h, i, c⟩ := s
  by_cases hl : p.LONG_MIN ≤ v ∧ v ≤ p.LONG_MAX
  · refine ⟨_, _, ⟨h ++ [⟨.robj ⟨OBJ_STRING, OBJ_ENCODING_INT, c, 1, .long v⟩, 1⟩], i, c⟩,
      createStringObjectFromLongLong_int p h i c v hv hl, ?_, ?_⟩
    · simp [decrRefCount, getObj, freeByType, freeStringObject, zfree, release,
        Outcome.andThen, OBJ_ENCODING_INT, OBJ_ENCODING_RAW]
    · rw [if_pos hl]
      exact releasedOnce_mk _ _ _ _ _ _ _ _ _ _ (by simp) (by simp) (by simp) (by simp)
        (by simp)
  · refine ⟨_, _, ⟨h ++ [⟨.sds (ll2string v).length (ll2string v ++ [0]), 1⟩,
        ⟨.robj ⟨OBJ_STRING, OBJ_ENCODING_RAW, c, 1, .ref h.length⟩, 1⟩], i, c⟩,
      createStringObjectFromLongLong_raw p h i c v hv hl, ?_, ?_⟩
    · simp [decrRefCount, getObj, freeByType, freeStringObject, sdsfree, zfree, release,
        Outcome.andThen]
    · rw [if_neg hl]
      exact releasedOnce_mk _ _ _ _ _ _ _ _ _ _ (by simp) (by simp) (by simp) (by simp)
        (by simp)

theorem decrRefCount_createZiplistObject (s : State) :
    decrRefCount (createZiplistObject s).2 (createZiplistObject s).1 =
      .panic "Unknown list encoding type" (createZiplistObject s).2 := by
  obtain ⟨h, i, c⟩ := s
  simp [createZiplistObject_mk, decrRefCount, getObj, freeByType, freeListObject,
    Outcome.andThen, OBJ_LIST, OBJ_STRING, OBJ_ENCODING_ZIPLIST, OBJ_ENCODING_QUICKLIST]

/-! ## The claims -/

theorem createStringObject_no_value (s : State) (ptr : Option (List UInt8)) (len : Nat) :
    (len ≤ 44 →
      createStringObject s ptr len = .ret none (createEmbeddedStringObject s ptr len).2) ∧
    (44 < len → createStringObject s ptr len = .undefined) := by
  constructor
  · intro h
    simp [createStringObject, OBJ_ENCODING_EMBSTR_SIZE_LIMIT, h, createEmbeddedStringObject]
  · intro h
    have h2 : ¬ len ≤ 44 := by omega
    simp [createStringObject, OBJ_ENCODING_EMBSTR_SIZE_LIMIT, h2]

theorem createStringObjectFromLongLong_shared (p : Platform) (s : State) (v : Int)
    (a : Addr) (r : Robj) (h0 : 0 ≤ v) (h1 : v < (p.OBJ_SHARED_INTEGERS : Int))
    (ha : s.integers[v.toNat]? = some a) (hr : getObj s a = some r) :
    createStringObjectFromLongLong p s v =
      .ret none (updObj s a (fun x => { x with refcount := x.refcount + 1 })) := by
  simp [createStringObjectFromLongLong, h0, h1, ha, incrRefCount, hr]

theorem dupStringObject_raw (h : List Cell) (i : List Addr) (c : Nat) (a t len : Nat)
    (r : Robj) (buf : List UInt8) (hobj : getObj ⟨h, i, c⟩ a = some r)
    (htype : r.type = OBJ_STRING) (henc : r.encoding = OBJ_ENCODING_RAW)
    (hptr : r.ptr = .ref t) (hsds : liveBlock ⟨h, i, c⟩ t = some (.sds len buf)) :
    dupStringObject ⟨h, i, c⟩ a =
      .ret (some (h.length + 1))
        ⟨h ++ [⟨.sds len (memcpy buf len ++ [0]), 0⟩,
          ⟨.robj ⟨OBJ_STRING, OBJ_ENCODING_RAW, c, 1, .ref h.length⟩, 0⟩], i, c⟩ := by
  simp [dupStringObject, hobj, htype, henc, hptr, sdsbuf, sdslen, hsds,
    createRawStringObject_mk, sdsinit]

theorem decrRefCount_unknown_encoding_panics (s : State) (a : Addr) (r : Robj)
    (h : getObj s a = some r) (hrc : r.refcount = 1) :
    (r.type = OBJ_LIST → r.encoding ≠ OBJ_ENCODING_QUICKLIST →
      decrRefCount s a = .panic "Unknown list encoding type" s) ∧
    (r.type = OBJ_SET → r.encoding ≠ OBJ_ENCODING_HT → r.encoding ≠ OBJ_ENCODING_INTSET →
      decrRefCount s a = .panic "Unknown set encoding type" s) ∧
    (r.type = OBJ_ZSET → r.encoding ≠ OBJ_ENCODING_SKIPLIST →
      r.encoding ≠ OBJ_ENCODING_ZIPLIST →
      decrRefCount s a = .panic "Unknown sorted set encoding" s) ∧
    (r.type = OBJ_HASH → r.encoding ≠ OBJ_ENCODING_HT → r.encoding ≠ OBJ_ENCODING_ZIPLIST →
      decrRefCount s a = .panic "Unknown hash encoding type" s) ∧
    (r.type = OBJ_STRING → r.encoding ≠ OBJ_ENCODING_RAW →
      decrRefCount s a = .ret () (release s a)) := by
  have hl : liveBlock s a ≠ none := by
    intro hn
    simp [getObj, hn] at h
  refine ⟨?_, ?_, ?_, ?_, ?_⟩
  · intro ht he
    simp [decrRefCount, h, hrc, freeByType, ht, freeListObject, he, Outcome.andThen,
      OBJ_LIST, OBJ_STRING]
  · intro ht he1 he2
    simp [decrRefCount, h, hrc, freeByType, ht, freeSetObject, he1, he2, Outcome.andThen,
      OBJ_LIST, OBJ_STRING, OBJ_SET]
  · intro ht he1 he2
    simp [decrRefCount, h, hrc, freeByType, ht, freeZsetObject, he1, he2, Outcome.andThen,
      OBJ_LIST, OBJ_STRING, OBJ_SET, OBJ_ZSET]
  · intro ht he1 he2
    simp [decrRefCount, h, hrc, freeByType, ht, freeHashObject, he1, he2, Outcome.andThen,
      OBJ_LIST, OBJ_STRING, OBJ_SET, OBJ_ZSET, OBJ_HASH]
  · intro ht he
    cases hb : liveBlock s a with
    | none => exact absurd hb hl
    | some blk =>
      simp [decrRefCount, h, hrc, freeByType, ht, freeStringObject, he, Outcome.andThen,
        zfree, hb]

/-- C1 (defect of the code): at the threshold length 44 `createStringObject` takes the
embedded branch, where `createEmbeddedStringObject` builds the Embedded-string chunk but
has no `return` statement, so no Value is returned; at length 45 it reaches the call
`createRawStringObject()` that lacks both arguments. -/
theorem createStringObject_threshold_no_value :
    createStringObject emptyState (some (List.replicate 44 97)) 44 =
      .ret none
        { heap := [⟨.embstr ⟨OBJ_STRING, OBJ_ENCODING_EMBSTR, 9, 1, .buf 0⟩ 44 44 SDS_TYPE_8
            (List.replicate 44 97 ++ [0]), 0⟩],
          integers := [], lruclock := 9 } ∧
    createStringObject emptyState (some (List.replicate 45 97)) 45 = .undefined := by
  constructor <;> rfl

/-- C2 (defect of the code): for the two bytes "hi" the chunk that
`createEmbeddedStringObject` fills does hold `h`, `i` and the terminating zero, but
`createStringObject` returns no Value from which the payload could be read back; for a
46-byte sequence the call that should build the Heap-string has no arguments. -/
theorem createStringObject_payload_not_returned :
    (∃ s1, createStringObject emptyState (some [104, 105]) 2 = .ret none s1 ∧
      sdsbuf s1 (.buf 0) = some [104, 105, 0] ∧ sdslen s1 (.buf 0) = some 2) ∧
    (∀ a s1, createStringObject emptyState (some [104, 105]) 2 ≠ .ret (some a) s1) ∧
    createStringObject emptyState (some (List.replicate 46 120)) 46 = .undefined := by
  refine ⟨⟨_, rfl, rfl, rfl⟩, ?_, rfl⟩
  intro a s1 h
  simp [createStringObject, OBJ_ENCODING_EMBSTR_SIZE_LIMIT, createEmbeddedStringObject] at h

/-- C3 (defect of the code): on a pool of three singletons,
`createStringObjectFromLongLong(2)` does raise the refcount of the singleton for 2 from 1
to 2 and leaves the other singletons alone, but the local `o` it returns was never
assigned: the caller does not receive the singleton. -/
theorem createStringObjectFromLongLong_shared_returns_unassigned :
    createStringObjectFromLongLong smallPool poolState 2 =
      .ret none
        { heap := [⟨.robj ⟨OBJ_STRING, OBJ_ENCODING_INT, 9, 1, .long 0⟩, 0⟩,
                   ⟨.robj ⟨OBJ_STRING, OBJ_ENCODING_INT, 9, 1, .long 1⟩, 0⟩,
                   ⟨.robj ⟨OBJ_STRING, OBJ_ENCODING_INT, 9, 2, .long 2⟩, 0⟩],
          integers := [0, 1, 2], lruclock := 9 } := by
  rfl

/-- C4: for `v` outside the shared range `createStringObjectFromLongLong` returns a Value at
an address that was not allocated before, leaving every earlier block and the pool as they
were.  When `LONG_MIN <= v <= LONG_MAX` the Value is a String with encoding
`OBJ_ENCODING_INT`, payload `v` stored in the pointer field, refcount 1; otherwise it is a
String with encoding `OBJ_ENCODING_RAW`, refcount 1, whose payload is a new sds string
holding the decimal text of `v`. -/
theorem createStringObjectFromLongLong_unshared (p : Platform) (s : State) (v : Int)
    (hv : v < 0 ∨ (p.OBJ_SHARED_INTEGERS : Int) ≤ v) :
    ∃ a s1, createStringObjectFromLongLong p s v = .ret (some a) s1 ∧
      s.heap[a]? = none ∧ (∃ cells, s1.heap = s.heap ++ cells) ∧
      s1.integers = s.integers ∧
      (p.LONG_MIN ≤ v ∧ v ≤ p.LONG_MAX →
        getObj s1 a = some ⟨OBJ_STRING, OBJ_ENCODING_INT, LRU_CLOCK s, 1, .long v⟩) ∧
      (¬ (p.LONG_MIN ≤ v ∧ v ≤ p.LONG_MAX) →
        ∃ t, getObj s1 a = some ⟨OBJ_STRING, OBJ_ENCODING_RAW, LRU_CLOCK s, 1, .ref t⟩ ∧
          s.heap[t]? = none ∧
          sdslen s1 (.ref t) = some (ll2string v).length ∧
          sdsbuf s1 (.ref t) = some (ll2string v ++ [0])) := by
  obtain ⟨h, i, c⟩ := s
  by_cases hl : p.LONG_MIN ≤ v ∧ v ≤ p.LONG_MAX
  · refine ⟨_, _, createStringObjectFromLongLong_int p h i c v hv hl, by simp, ⟨_, rfl⟩, rfl,
      ?_, fun hn => absurd hl hn⟩
    intro _
    simp [getObj, LRU_CLOCK]
  · refine ⟨_, _, createStringObjectFromLongLong_raw p h i c v hv hl, by simp, ⟨_, rfl⟩, rfl,
      fun hp => absurd hp hl, ?_⟩
    intro _
    refine ⟨h.length, ?_, by simp, ?_, ?_⟩
    · simp [getObj, LRU_CLOCK]
    · simp [sdslen]
    · simp [sdsbuf]

theorem createStringObjectFromLongLong_unshared_witness :
    ((10000 : Int) < 0 ∨ (lp64.OBJ_SHARED_INTEGERS : Int) ≤ 10000) ∧
    ∃ a s1, createStringObjectFromLongLong lp64 poolState 10000 = .ret (some a) s1 ∧
      poolState.heap[a]? = none ∧ (∃ cells, s1.heap = poolState.heap ++ cells) ∧
      s1.integers = poolState.integers ∧
      (lp64.LONG_MIN ≤ 10000 ∧ (10000 : Int) ≤ lp64.LONG_MAX →
        getObj s1 a =
          some ⟨OBJ_STRING, OBJ_ENCODING_INT, LRU_CLOCK poolState, 1, .long 10000⟩) ∧
      (¬ (lp64.LONG_MIN ≤ 10000 ∧ (10000 : Int) ≤ lp64.LONG_MAX) →
        ∃ t, getObj s1 a =
            some ⟨OBJ_STRING, OBJ_ENCODING_RAW, LRU_CLOCK poolState, 1, .ref t⟩ ∧
          poolState.heap[t]? = none ∧
          sdslen s1 (.ref t) = some (ll2string 10000).length ∧
          sdsbuf s1 (.ref t) = some (ll2string 10000 ++ [0])) :=
  ⟨by decide, createStringObjectFromLongLong_unshared lp64 poolState 10000 (by decide)⟩

/-- C5 (defect of the code): `dupStringObject` on an Embedded-string Value ("hi", three
owners) goes through `createEmbeddedStringObject`, which allocates the copy (encoding
EMBSTR, refcount 1, same bytes) and then ends without a `return` statement: no Value is
returned.  The original is unchanged. -/
theorem dupStringObject_embstr_returns_nothing :
    dupStringObject embstrState 0 =
      .ret none
        { heap := [⟨.embstr ⟨OBJ_STRING, OBJ_ENCODING_EMBSTR, 9, 3, .buf 0⟩ 2 2 SDS_TYPE_8
                     [104, 105, 0], 0⟩,
                   ⟨.embstr ⟨OBJ_STRING, OBJ_ENCODING_EMBSTR, 9, 1, .buf 1⟩ 2 2 SDS_TYPE_8
                     [104, 105, 0], 0⟩],
          integers := [], lruclock := 9 } := by
  rfl

/-- C6: `dupStringObject` on a String Value with encoding `OBJ_ENCODING_INT`, in particular
on a pool singleton or on any Inline-integer Value that holds a number of the shared range,
returns a Value at an address that was not allocated before, hence different from every
pool singleton; the new Value has refcount 1 and the payload of the original, and every
object that existed before the call (every pool singleton among them) is unchanged. -/
theorem dupStringObject_int_unshared (s : State) (a : Addr) (r : Robj)
    (hobj : getObj s a = some r) (htype : r.type = OBJ_STRING)
    (henc : r.encoding = OBJ_ENCODING_INT)
    (hpool : ∀ b ∈ s.integers, b < s.heap.length) :
    ∃ d s1, dupStringObject s a = .ret (some d) s1 ∧
      s.heap[d]? = none ∧ (∀ b ∈ s1.integers, d ≠ b) ∧
      getObj s1 d = some ⟨OBJ_STRING, OBJ_ENCODING_INT, LRU_CLOCK s, 1, r.ptr⟩ ∧
      s1.integers = s.integers ∧
      (∀ b, b < s.heap.length → getObj s1 b = getObj s b) := by
  obtain ⟨h, i, c⟩ := s
  have e : dupStringObject ⟨h, i, c⟩ a = .ret (some h.length)
      ⟨h ++ [⟨.robj ⟨OBJ_STRING, OBJ_ENCODING_INT, c, 1, r.ptr⟩, 0⟩], i, c⟩ := by
    simp [dupStringObject, hobj, htype, henc, createObject_mk, updObj, Block.mapObj,
      OBJ_ENCODING_INT, OBJ_ENCODING_RAW, OBJ_ENCODING_EMBSTR]
  refine ⟨_, _, e, by simp, ?_, ?_, rfl, ?_⟩
  · intro b hb hd
    have hlt : b < h.length := hpool b hb
    exact Nat.ne_of_gt hlt hd
  · simp [getObj, LRU_CLOCK]
  · intro b hb
    have hlt : b < h.length := hb
    simp only [getObj, liveBlock_append_lt h _ i c b hlt]

theorem dupStringObject_int_unshared_witness :
    (getObj poolState 2 = some ⟨OBJ_STRING, OBJ_ENCODING_INT, 9, 1, .long 2⟩ ∧
      OBJ_STRING = OBJ_STRING ∧ OBJ_ENCODING_INT = OBJ_ENCODING_INT ∧
      ∀ b ∈ poolState.integers, b < poolState.heap.length) ∧
    ∃ d s1, dupStringObject poolState 2 = .ret (some d) s1 ∧
      poolState.heap[d]? = none ∧ (∀ b ∈ s1.integers, d ≠ b) ∧
      getObj s1 d = some ⟨OBJ_STRING, OBJ_ENCODING_INT, LRU_CLOCK poolState, 1, .long 2⟩ ∧
      s1.integers = poolState.integers ∧
      (∀ b, b < poolState.heap.length → getObj s1 b = getObj poolState b) :=
  ⟨⟨by decide, rfl, rfl, by decide⟩,
    dupStringObject_int_unshared poolState 2 ⟨OBJ_STRING, OBJ_ENCODING_INT, 9, 1, .long 2⟩
      (by decide) rfl rfl (by decide)⟩

/-- C7: `decrRefCount` on a Value whose refcount is `<= 0` stops in `serverPanic`, whatever
its type and encoding are, and the state at the panic is the state on entry: no destructor
has run, no block has been released and the refcount is unchanged. -/
theorem decrRefCount_nonpositive_panics (s : State) (a : Addr) (r : Robj)
    (h : getObj s a = some r) (hrc : r.refcount ≤ 0) :
    decrRefCount s a = .panic "decrRefCount against refcount <= 0" s := by
  unfold decrRefCount
  simp [h, hrc]

theorem decrRefCount_nonpositive_panics_witness :
    (getObj zeroRefState 0 = some ⟨OBJ_LIST, OBJ_ENCODING_QUICKLIST, 3, 0, .ref 1⟩ ∧
      (0 : Int) ≤ 0) ∧
    decrRefCount zeroRefState 0 = .panic "decrRefCount against refcount <= 0" zeroRefState :=
  ⟨⟨by decide, by decide⟩,
    decrRefCount_nonpositive_panics zeroRefState 0
      ⟨OBJ_LIST, OBJ_ENCODING_QUICKLIST, 3, 0, .ref 1⟩ (by decide) (by decide)⟩

theorem liveBlock_updObj (s : State) (a b : Addr) (f : Robj → Robj) :
    liveBlock (updObj s a f) b =
      (liveBlock s b).map (fun blk => if b = a then blk.mapObj f else blk) := by
  unfold liveBlock updObj
  rw [heap_updCell]
  by_cases hb : b = a
  · subst hb
    cases hc : s.heap[b]? with
    | none => simp
    | some c => by_cases hf : c.frees = 0 <;> simp [hf]
  · cases hc : s.heap[b]? with
    | none => simp [hb]
    | some c => by_cases hf : c.frees = 0 <;> simp [hb, hf]

theorem sdsbuf_updObj (s : State) (a : Addr) (f : Robj → Robj) (p : Ptr) :
    sdsbuf (updObj s a f) p = sdsbuf s p ∧ sdslen (updObj s a f) p = sdslen s p := by
  cases p with
  | null => exact ⟨rfl, rfl⟩
  | long v => exact ⟨rfl, rfl⟩
  | buf t =>
    simp only [sdsbuf, sdslen, liveBlock_updObj]
    cases hl : liveBlock s t with
    | none => simp
    | some blk => by_cases ht : t = a <;> cases blk <;> simp [ht, Block.mapObj]
  | ref t =>
    simp only [sdsbuf, sdslen, liveBlock_updObj]
    cases hl : liveBlock s t with
    | none => simp
    | some blk => by_cases ht : t = a <;> cases blk <;> simp [ht, Block.mapObj]

theorem getObj_shape (s : State) (a : Addr) (r : Robj) (h : getObj s a = some r) :
    (∃ fr, s.heap[a]? = some ⟨.robj r, fr⟩) ∨
      (∃ len alloc flags buf fr, s.heap[a]? = some ⟨.embstr r len alloc flags buf, fr⟩) := by
  unfold getObj liveBlock at h
  cases hc : s.heap[a]? with
  | none => simp [hc] at h
  | some c =>
    obtain ⟨blk, fr⟩ := c
    by_cases hf : fr = 0
    · cases blk <;> simp [hc, hf] at h
      · left; exact ⟨fr, by rw [h]⟩
      · right; exact ⟨_, _, _, _, fr, by rw [h]⟩
    · simp [hc, hf] at h

theorem heap_updObj_same (s : State) (a : Addr) (r : Robj) (f : Robj → Robj) :
    (∀ fr, s.heap[a]? = some ⟨.robj r, fr⟩ →
      (updObj s a f).heap[a]? = some ⟨.robj (f r), fr⟩) ∧
    (∀ len alloc flags buf fr, s.heap[a]? = some ⟨.embstr r len alloc flags buf, fr⟩ →
      (updObj s a f).heap[a]? = some ⟨.embstr (f r) len alloc flags buf, fr⟩) := by
  constructor
  · intro fr hc
    unfold updObj
    rw [heap_updCell]
    simp [hc, Block.mapObj]
  · intro len alloc flags buf fr hc
    unfold updObj
    rw [heap_updCell]
    simp [hc, Block.mapObj]

/-- C8: `decrRefCount` on a Value whose refcount is `n >= 2` returns normally with refcount
`n - 1`; type, encoding, payload and access hint of the Value are unchanged, every other
block of the heap is unchanged (no destructor ran) and no release count changed (nothing
was freed).  The type and encoding tags are arbitrary.  The block of the Value itself is
the block on entry with only the refcount of its header changed: for an Embedded-string
the `sdshdr8` fields and the bytes of the buffer are as before, and the sds string that the
payload pointer addresses reads back with the same length and the same bytes. -/
theorem decrRefCount_above_one (s : State) (a : Addr) (r : Robj)
    (h : getObj s a = some r) (hrc : 2 ≤ r.refcount) :
    ∃ s', decrRefCount s a = .ret () s' ∧
      getObj s' a = some { r with refcount := r.refcount - 1 } ∧
      (∀ b : Addr, b ≠ a → s'.heap[b]? = s.heap[b]?) ∧
      (∀ b : Addr, (s'.heap[b]?).map Cell.frees = (s.heap[b]?).map Cell.frees) ∧
      s'.heap.length = s.heap.length ∧ s'.integers = s.integers ∧
      s'.lruclock = s.lruclock ∧
      ((∃ fr, s.heap[a]? = some ⟨.robj r, fr⟩) ∨
        (∃ len alloc flags buf fr,
          s.heap[a]? = some ⟨.embstr r len alloc flags buf, fr⟩)) ∧
      (∀ fr, s.heap[a]? = some ⟨.robj r, fr⟩ →
        s'.heap[a]? = some ⟨.robj { r with refcount := r.refcount - 1 }, fr⟩) ∧
      (∀ len alloc flags buf fr, s.heap[a]? = some ⟨.embstr r len alloc flags buf, fr⟩ →
        s'.heap[a]? =
          some ⟨.embstr { r with refcount := r.refcount - 1 } len alloc flags buf, fr⟩) ∧
      sdsbuf s' r.ptr = sdsbuf s r.ptr ∧ sdslen s' r.ptr = sdslen s r.ptr := by
  refine ⟨updObj s a (fun x => { x with refcount := x.refcount - 1 }), ?_, ?_, ?_, ?_, ?_, ?_,
    ?_, getObj_shape s a r h, ?_, ?_, ?_, ?_⟩
  · unfold decrRefCount
    have h1 : ¬ r.refcount ≤ 0 := by omega
    have h2 : ¬ r.refcount = 1 := by omega
    simp [h, h1, h2]
  · exact getObj_updObj_same s a r _ h
  · intro b hb
    unfold updObj
    rw [heap_updCell]
    simp [hb]
  · intro b
    unfold updObj
    rw [heap_updCell]
    by_cases hb : b = a
    · subst hb
      cases hc : s.heap[b]? <;> simp
    · simp [hb]
  · exact length_updCell _ _ _
  · exact integers_updCell _ _ _
  · exact lruclock_updCell _ _ _
  · exact (heap_updObj_same s a r _).1
  · exact (heap_updObj_same s a r _).2
  · exact (sdsbuf_updObj s a _ r.ptr).1
  · exact (sdsbuf_updObj s a _ r.ptr).2

theorem decrRefCount_above_one_witness :
    (getObj embstrState 0 = some (⟨OBJ_STRING, OBJ_ENCODING_EMBSTR, 9, 3, .buf 0⟩ : Robj) ∧ (2 : Int) ≤ (⟨OBJ_STRING, OBJ_ENCODING_EMBSTR, 9, 3, .buf 0⟩ : Robj).refcount) ∧
    ∃ s', decrRefCount embstrState 0 = .ret () s' ∧
      getObj s' 0 = some { (⟨OBJ_STRING, OBJ_ENCODING_EMBSTR, 9, 3, .buf 0⟩ : Robj) with refcount := (⟨OBJ_STRING, OBJ_ENCODING_EMBSTR, 9, 3, .buf 0⟩ : Robj).refcount - 1 } ∧
      (∀ b : Addr, b ≠ 0 → s'.heap[b]? = embstrState.heap[b]?) ∧
      (∀ b : Addr, (s'.heap[b]?).map Cell.frees = (embstrState.heap[b]?).map Cell.frees) ∧
      s'.heap.length = embstrState.heap.length ∧ s'.integers = embstrState.integers ∧
      s'.lruclock = embstrState.lruclock ∧
      ((∃ fr, embstrState.heap[0]? = some ⟨.robj (⟨OBJ_STRING, OBJ_ENCODING_EMBSTR, 9, 3, .buf 0⟩ : Robj), fr⟩) ∨
        (∃ len alloc flags buf fr,
          embstrState.heap[0]? = some ⟨.embstr (⟨OBJ_STRING, OBJ_ENCODING_EMBSTR, 9, 3, .buf 0⟩ : Robj) len alloc flags buf, fr⟩)) ∧
      (∀ fr, embstrState.heap[0]? = some ⟨.robj (⟨OBJ_STRING, OBJ_ENCODING_EMBSTR, 9, 3, .buf 0⟩ : Robj), fr⟩ →
        s'.heap[0]? = some ⟨.robj { (⟨OBJ_STRING, OBJ_ENCODING_EMBSTR, 9, 3, .buf 0⟩ : Robj) with refcount := (⟨OBJ_STRING, OBJ_ENCODING_EMBSTR, 9, 3, .buf 0⟩ : Robj).refcount - 1 }, fr⟩) ∧
      (∀ len alloc flags buf fr,
        embstrState.heap[0]? = some ⟨.embstr (⟨OBJ_STRING, OBJ_ENCODING_EMBSTR, 9, 3, .buf 0⟩ : Robj) len alloc flags buf, fr⟩ →
        s'.heap[0]? =
          some ⟨.embstr { (⟨OBJ_STRING, OBJ_ENCODING_EMBSTR, 9, 3, .buf 0⟩ : Robj) with refcount := (⟨OBJ_STRING, OBJ_ENCODING_EMBSTR, 9, 3, .buf 0⟩ : Robj).refcount - 1 } len alloc flags buf,
            fr⟩) ∧
      sdsbuf s' (⟨OBJ_STRING, OBJ_ENCODING_EMBSTR, 9, 3, .buf 0⟩ : Robj).ptr = sdsbuf embstrState (⟨OBJ_STRING, OBJ_ENCODING_EMBSTR, 9, 3, .buf 0⟩ : Robj).ptr ∧
      sdslen s' (⟨OBJ_STRING, OBJ_ENCODING_EMBSTR, 9, 3, .buf 0⟩ : Robj).ptr = sdslen embstrState (⟨OBJ_STRING, OBJ_ENCODING_EMBSTR, 9, 3, .buf 0⟩ : Robj).ptr :=
  ⟨⟨by decide, by decide⟩,
    decrRefCount_above_one embstrState 0 (⟨OBJ_STRING, OBJ_ENCODING_EMBSTR, 9, 3, .buf 0⟩ : Robj) (by decide) (by decide)⟩

/-- C9 (defect of the code): a String Value whose encoding tag is `OBJ_ENCODING_HT`, which
is none of RAW, EMBSTR, INT, with refcount 1: `freeStringObject` has no case for the tag
and does nothing, `decrRefCount` then releases the header and returns normally.  There is
no panic, and the block the payload points to is left unreleased. -/
theorem decrRefCount_string_unknown_encoding_returns :
    getObj stringHtState 1 = some ⟨OBJ_STRING, OBJ_ENCODING_HT, 9, 1, .ref 0⟩ ∧
    decrRefCount stringHtState 1 =
      .ret ()
        { heap := [⟨.dict .setDictType, 0⟩,
                   ⟨.robj ⟨OBJ_STRING, OBJ_ENCODING_HT, 9, 1, .ref 0⟩, 1⟩],
          integers := [], lruclock := 9 } := by
  constructor <;> rfl

/-- C10 (the claim as stated fails): the List Value that `createZiplistObject` returns is
not released by `decrRefCount`, which stops in `serverPanic` inside `freeListObject`
with nothing released. -/
theorem decrRefCount_createZiplistObject_panics :
    decrRefCount (createZiplistObject emptyState).2 (createZiplistObject emptyState).1 =
      .panic "Unknown list encoding type"
        { heap := [⟨.ziplist, 0⟩,
                   ⟨.robj ⟨OBJ_LIST, OBJ_ENCODING_ZIPLIST, 9, 1, .ref 0⟩, 0⟩],
          integers := [], lruclock := 9 } ∧
    ¬ ∃ s2, decrRefCount (createZiplistObject emptyState).2
        (createZiplistObject emptyState).1 = .ret () s2 := by
  constructor
  · rfl
  · rintro ⟨s2, h⟩
    rw [decrRefCount_createZiplistObject] at h
    cases h

/-- C10 (amended): for the Values returned by `createRawStringObject`, by the non-shared
branches of `createStringObjectFromLongLong`, and by `createQuicklistObject`,
`createSetObject`, `createIntsetObject`, `createHashObject`, `createZsetObject` and
`createZsetZiplistObject`, one `decrRefCount` returns normally and releases exactly once
every block the constructor allocated (the header included: 2 blocks, 1 for an
Inline-integer, 4 for the skiplist sorted set, namely the zset pair, the dict, the skiplist
and the header), touching no older block.  For the Value returned by
`createZiplistObject`, `decrRefCount` stops in `serverPanic` with nothing released. -/
theorem decrRefCount_releases_constructed (p : Platform) (s : State)
    (b : Option (List UInt8)) (len : Nat) (v : Int)
    (hv : v < 0 ∨ (p.OBJ_SHARED_INTEGERS : Int) ≤ v) :
    (∃ s2, decrRefCount (createRawStringObject s b len).2 (createRawStringObject s b len).1
        = .ret () s2 ∧ ReleasedOnce s (createRawStringObject s b len).2 s2 2) ∧
    (∃ a s1 s2, createStringObjectFromLongLong p s v = .ret (some a) s1 ∧
      decrRefCount s1 a = .ret () s2 ∧
      ReleasedOnce s s1 s2 (if p.LONG_MIN ≤ v ∧ v ≤ p.LONG_MAX then 1 else 2)) ∧
    (∃ s2, decrRefCount (createQuicklistObject s).2 (createQuicklistObject s).1 = .ret () s2 ∧
      ReleasedOnce s (createQuicklistObject s).2 s2 2) ∧
    (∃ s2, decrRefCount (createSetObject s).2 (createSetObject s).1 = .ret () s2 ∧
      ReleasedOnce s (createSetObject s).2 s2 2) ∧
    (∃ s2, decrRefCount (createIntsetObject s).2 (createIntsetObject s).1 = .ret () s2 ∧
      ReleasedOnce s (createIntsetObject s).2 s2 2) ∧
    (∃ s2, decrRefCount (createHashObject s).2 (createHashObject s).1 = .ret () s2 ∧
      ReleasedOnce s (createHashObject s).2 s2 2) ∧
    (∃ s2, decrRefCount (createZsetObject s).2 (createZsetObject s).1 = .ret () s2 ∧
      ReleasedOnce s (createZsetObject s).2 s2 4) ∧
    (∃ s2, decrRefCount (createZsetZiplistObject s).2 (createZsetZiplistObject s).1
        = .ret () s2 ∧ ReleasedOnce s (createZsetZiplistObject s).2 s2 2) ∧
    decrRefCount (createZiplistObject s).2 (createZiplistObject s).1 =
      .panic "Unknown list encoding type" (createZiplistObject s).2 :=
  ⟨decrRefCount_createRawStringObject s b len,
    decrRefCount_createStringObjectFromLongLong p s v hv,
    decrRefCount_createQuicklistObject s, decrRefCount_createSetObject s,
    decrRefCount_createIntsetObject s, decrRefCount_createHashObject s,
    decrRefCount_createZsetObject s, decrRefCount_createZsetZiplistObject s,
    decrRefCount_createZiplistObject s⟩

theorem decrRefCount_releases_constructed_witness :
    ((1099511627776 : Int) < 0 ∨ (ilp32.OBJ_SHARED_INTEGERS : Int) ≤ 1099511627776) ∧
    ((∃ s2, decrRefCount (createRawStringObject poolState (some [104, 105]) 2).2 (createRawStringObject poolState (some [104, 105]) 2).1
        = .ret () s2 ∧ ReleasedOnce poolState (createRawStringObject poolState (some [104, 105]) 2).2 s2 2) ∧
    (∃ a s1 s2, createStringObjectFromLongLong ilp32 poolState (1099511627776 : Int) = .ret (some a) s1 ∧
      decrRefCount s1 a = .ret () s2 ∧
      ReleasedOnce poolState s1 s2 (if ilp32.LONG_MIN ≤ (1099511627776 : Int) ∧ (1099511627776 : Int) ≤ ilp32.LONG_MAX then 1 else 2)) ∧
    (∃ s2, decrRefCount (createQuicklistObject poolState).2 (createQuicklistObject poolState).1 = .ret () s2 ∧
      ReleasedOnce poolState (createQuicklistObject poolState).2 s2 2) ∧
    (∃ s2, decrRefCount (createSetObject poolState).2 (createSetObject poolState).1 = .ret () s2 ∧
      ReleasedOnce poolState (createSetObject poolState).2 s2 2) ∧
    (∃ s2, decrRefCount (createIntsetObject poolState).2 (createIntsetObject poolState).1 = .ret () s2 ∧
      ReleasedOnce poolState (createIntsetObject poolState).2 s2 2) ∧
    (∃ s2, decrRefCount (createHashObject poolState).2 (createHashObject poolState).1 = .ret () s2 ∧
      ReleasedOnce poolState (createHashObject poolState).2 s2 2) ∧
    (∃ s2, decrRefCount (createZsetObject poolState).2 (createZsetObject poolState).1 = .ret () s2 ∧
      ReleasedOnce poolState (createZsetObject poolState).2 s2 4) ∧
    (∃ s2, decrRefCount (createZsetZiplistObject poolState).2 (createZsetZiplistObject poolState).1
        = .ret () s2 ∧ ReleasedOnce poolState (createZsetZiplistObject poolState).2 s2 2) ∧
    decrRefCount (createZiplistObject poolState).2 (createZiplistObject poolState).1 =
      .panic "Unknown list encoding type" (createZiplistObject poolState).2) :=
  ⟨by decide,
    decrRefCount_releases_constructed ilp32 poolState (some [104, 105]) 2 1099511627776
      (by decide)⟩

/-- C11: `checkType(c, o, t)` returns 1 exactly when `o->type != t` and 0 exactly when
`o->type == t`; when the types match the client is the client on entry (no reply was
queued) and the state, hence the Value `o`, is unchanged. -/
theorem checkType_result (c : Client) (s : State) (a : Addr) (r : Robj) (t : Int)
    (h : getObj s a = some r) :
    ∃ n c1 s1, checkType c s a t = .ret (n, c1) s1 ∧ s1 = s ∧
      (n = 1 ↔ (r.type : Int) ≠ t) ∧ (n = 0 ↔ (r.type : Int) = t) ∧
      ((r.type : Int) = t → c1 = c) := by
  by_cases ht : (r.type : Int) = t
  · exact ⟨0, c, s, by simp [checkType, h, ht], rfl, by simp [ht], by simp [ht], fun _ => rfl⟩
  · exact ⟨1, addReply c shared.wrongtypeerr, s, by simp [checkType, h, ht], rfl,
      by simp [ht], by simp [ht], fun e => absurd e ht⟩

theorem checkType_result_witness :
    getObj sharedHashState 1 = some ⟨OBJ_HASH, OBJ_ENCODING_ZIPLIST, 3, 2, .ref 0⟩ ∧
    ∃ n c1 s1, checkType ⟨["+OK"]⟩ sharedHashState 1 4 = .ret (n, c1) s1 ∧
      s1 = sharedHashState ∧
      (n = 1 ↔ ((OBJ_HASH : Nat) : Int) ≠ 4) ∧ (n = 0 ↔ ((OBJ_HASH : Nat) : Int) = 4) ∧
      (((OBJ_HASH : Nat) : Int) = 4 → c1 = ⟨["+OK"]⟩) :=
  ⟨by decide,
    checkType_result ⟨["+OK"]⟩ sharedHashState 1
      ⟨OBJ_HASH, OBJ_ENCODING_ZIPLIST, 3, 2, .ref 0⟩ 4 (by decide)⟩

/-- C12 (the claim as stated fails): on a Hash Value checked against the type String,
`checkType` returns 1 and the client's reply state has changed: the wrong-type error has
been queued by `checkType` itself. -/
theorem checkType_mismatch_queues_reply :
    checkType ⟨[]⟩ sharedHashState 1 0 =
      .ret (1, ⟨["-WRONGTYPE Operation against a key holding the wrong kind of value"]⟩)
        sharedHashState ∧
    ¬ ∃ n, checkType ⟨[]⟩ sharedHashState 1 0 = .ret (n, ⟨[]⟩) sharedHashState := by
  constructor
  · rfl
  · rintro ⟨n, h⟩
    have e : checkType ⟨[]⟩ sharedHashState 1 0 =
        .ret (1, ⟨["-WRONGTYPE Operation against a key holding the wrong kind of value"]⟩)
          sharedHashState := rfl
    rw [e] at h
    simp at h

/-- C12 (amended): on a type mismatch `checkType` returns 1 and itself queues the reply
`shared.wrongtypeerr` for the client through `addReply`, after the replies that were
already queued; the state, hence the Value, is unchanged. -/
theorem checkType_mismatch (c : Client) (s : State) (a : Addr) (r : Robj) (t : Int)
    (h : getObj s a = some r) (ht : (r.type : Int) ≠ t) :
    checkType c s a t = .ret (1, addReply c shared.wrongtypeerr) s ∧
      (addReply c shared.wrongtypeerr).reply = c.reply ++ [shared.wrongtypeerr] ∧
      (addReply c shared.wrongtypeerr) ≠ c := by
  refine ⟨by simp [checkType, h, ht], rfl, ?_⟩
  intro e
  have := congrArg (fun x => x.reply.length) e
  simp [addReply] at this

theorem checkType_mismatch_witness :
    (getObj sharedHashState 1 = some ⟨OBJ_HASH, OBJ_ENCODING_ZIPLIST, 3, 2, .ref 0⟩ ∧
      ((OBJ_HASH : Nat) : Int) ≠ 0) ∧
    (checkType ⟨["+OK"]⟩ sharedHashState 1 0 =
        .ret (1, addReply ⟨["+OK"]⟩ shared.wrongtypeerr) sharedHashState ∧
      (addReply ⟨["+OK"]⟩ shared.wrongtypeerr).reply = ["+OK"] ++ [shared.wrongtypeerr] ∧
      (addReply ⟨["+OK"]⟩ shared.wrongtypeerr) ≠ ⟨["+OK"]⟩) :=
  ⟨⟨by decide, by decide⟩,
    checkType_mismatch ⟨["+OK"]⟩ sharedHashState 1
      ⟨OBJ_HASH, OBJ_ENCODING_ZIPLIST, 3, 2, .ref 0⟩ 0 (by decide) (by decide)⟩

theorem getObj_append_length_robj (h : List Cell) (i : List Addr) (c : Nat) (r : Robj)
    (l : List Cell) :
    getObj ⟨h ++ (⟨.robj r, 0⟩ :: l), i, c⟩ h.length = some r := by
  simp [getObj]

theorem getObj_append_succ_robj (h : List Cell) (i : List Addr) (c : Nat) (x : Cell)
    (r : Robj) (l : List Cell) :
    getObj ⟨h ++ (x :: ⟨.robj r, 0⟩ :: l), i, c⟩ (h.length + 1) = some r := by
  simp [getObj]

theorem getObj_createObject (s : State) (t : Nat) (p : Ptr) :
    getObj (createObject s t p).2 (createObject s t p).1 =
      some ⟨t, OBJ_ENCODING_RAW, LRU_CLOCK s, 1, p⟩ := by
  obtain ⟨h, i, c⟩ := s
  simp [createObject_mk, getObj, LRU_CLOCK]

theorem getObj_createRawStringObject (s : State) (b : Option (List UInt8)) (len : Nat) :
    getObj (createRawStringObject s b len).2 (createRawStringObject s b len).1 =
      some ⟨OBJ_STRING, OBJ_ENCODING_RAW, LRU_CLOCK s, 1, .ref s.heap.length⟩ := by
  obtain ⟨h, i, c⟩ := s
  simp [createRawStringObject_mk, getObj, LRU_CLOCK]

theorem getObj_createQuicklistObject (s : State) :
    getObj (createQuicklistObject s).2 (createQuicklistObject s).1 =
        some ⟨OBJ_LIST, OBJ_ENCODING_QUICKLIST, LRU_CLOCK s, 1, .ref s.heap.length⟩ ∧
      liveBlock (createQuicklistObject s).2 s.heap.length = some .quicklist := by
  obtain ⟨h, i, c⟩ := s
  simp [createQuicklistObject_mk, getObj, LRU_CLOCK]

theorem getObj_createZiplistObject (s : State) :
    getObj (createZiplistObject s).2 (createZiplistObject s).1 =
        some ⟨OBJ_LIST, OBJ_ENCODING_ZIPLIST, LRU_CLOCK s, 1, .ref s.heap.length⟩ ∧
      liveBlock (createZiplistObject s).2 s.heap.length = some .ziplist := by
  obtain ⟨h, i, c⟩ := s
  simp [createZiplistObject_mk, getObj, LRU_CLOCK]

theorem getObj_createSetObject (s : State) :
    getObj (createSetObject s).2 (createSetObject s).1 =
        some ⟨OBJ_SET, OBJ_ENCODING_HT, LRU_CLOCK s, 1, .ref s.heap.length⟩ ∧
      liveBlock (createSetObject s).2 s.heap.length = some (.dict .setDictType) := by
  obtain ⟨h, i, c⟩ := s
  simp [createSetObject_mk, getObj, LRU_CLOCK]

theorem getObj_createIntsetObject (s : State) :
    getObj (createIntsetObject s).2 (createIntsetObject s).1 =
        some ⟨OBJ_SET, OBJ_ENCODING_INTSET, LRU_CLOCK s, 1, .ref s.heap.length⟩ ∧
      liveBlock (createIntsetObject s).2 s.heap.length = some .intset := by
  obtain ⟨h, i, c⟩ := s
  simp [createIntsetObject_mk, getObj, LRU_CLOCK]

theorem getObj_createHashObject (s : State) :
    getObj (createHashObject s).2 (createHashObject s).1 =
        some ⟨OBJ_HASH, OBJ_ENCODING_ZIPLIST, LRU_CLOCK s, 1, .ref s.heap.length⟩ ∧
      liveBlock (createHashObject s).2 s.heap.length = some .ziplist := by
  obtain ⟨h, i, c⟩ := s
  simp [createHashObject_mk, getObj, LRU_CLOCK]

theorem getObj_createZsetZiplistObject (s : State) :
    getObj (createZsetZiplistObject s).2 (createZsetZiplistObject s).1 =
        some ⟨OBJ_ZSET, OBJ_ENCODING_ZIPLIST, LRU_CLOCK s, 1, .ref s.heap.length⟩ ∧
      liveBlock (createZsetZiplistObject s).2 s.heap.length = some .ziplist := by
  obtain ⟨h, i, c⟩ := s
  simp [createZsetZiplistObject_mk, getObj, LRU_CLOCK]

theorem getObj_createZsetObject (s : State) :
    getObj (createZsetObject s).2 (createZsetObject s).1 =
        some ⟨OBJ_ZSET, OBJ_ENCODING_SKIPLIST, LRU_CLOCK s, 1, .ref s.heap.length⟩ ∧
      liveBlock (createZsetObject s).2 s.heap.length =
        some (.zset (some (s.heap.length + 1)) (some (s.heap.length + 2))) := by
  obtain ⟨h, i, c⟩ := s
  simp [createZsetObject_mk, getObj, LRU_CLOCK]

/-- C13 (the claim as stated fails): the Set Value that `createSetObject` returns has the
encoding `OBJ_ENCODING_HT` over a dict, not `OBJ_ENCODING_INTSET`. -/
theorem createSetObject_not_intset :
    getObj (createSetObject emptyState).2 (createSetObject emptyState).1 =
      some ⟨OBJ_SET, OBJ_ENCODING_HT, 9, 1, .ref 0⟩ ∧
    (getObj (createSetObject emptyState).2 (createSetObject emptyState).1).map Robj.encoding
      ≠ some OBJ_ENCODING_INTSET := by
  constructor
  · rfl
  · decide

/-- C13 (amended): `createSetObject` returns a Value of type Set with encoding
`OBJ_ENCODING_HT` whose payload is a new dict; the Set with encoding
`OBJ_ENCODING_INTSET` over a new intset is what `createIntsetObject` returns.
`createHashObject` returns a Hash with the packed encoding `OBJ_ENCODING_ZIPLIST` over a
new ziplist; for lists `createQuicklistObject` returns encoding `OBJ_ENCODING_QUICKLIST`
over a new quicklist and `createZiplistObject` returns encoding `OBJ_ENCODING_ZIPLIST`
over a new ziplist. -/
theorem collection_constructor_encodings (s : State) :
    (getObj (createSetObject s).2 (createSetObject s).1 =
        some ⟨OBJ_SET, OBJ_ENCODING_HT, LRU_CLOCK s, 1, .ref s.heap.length⟩ ∧
      liveBlock (createSetObject s).2 s.heap.length = some (.dict .setDictType)) ∧
    (getObj (createIntsetObject s).2 (createIntsetObject s).1 =
        some ⟨OBJ_SET, OBJ_ENCODING_INTSET, LRU_CLOCK s, 1, .ref s.heap.length⟩ ∧
      liveBlock (createIntsetObject s).2 s.heap.length = some .intset) ∧
    (getObj (createHashObject s).2 (createHashObject s).1 =
        some ⟨OBJ_HASH, OBJ_ENCODING_ZIPLIST, LRU_CLOCK s, 1, .ref s.heap.length⟩ ∧
      liveBlock (createHashObject s).2 s.heap.length = some .ziplist) ∧
    (getObj (createQuicklistObject s).2 (createQuicklistObject s).1 =
        some ⟨OBJ_LIST, OBJ_ENCODING_QUICKLIST, LRU_CLOCK s, 1, .ref s.heap.length⟩ ∧
      liveBlock (createQuicklistObject s).2 s.heap.length = some .quicklist) ∧
    (getObj (createZiplistObject s).2 (createZiplistObject s).1 =
        some ⟨OBJ_LIST, OBJ_ENCODING_ZIPLIST, LRU_CLOCK s, 1, .ref s.heap.length⟩ ∧
      liveBlock (createZiplistObject s).2 s.heap.length = some .ziplist) :=
  ⟨getObj_createSetObject s, getObj_createIntsetObject s, getObj_createHashObject s,
    getObj_createQuicklistObject s, getObj_createZiplistObject s⟩

/-- C14 (defect of the code): `createEmbeddedStringObject("hi", 2)` builds a String header
with encoding EMBSTR, refcount 1 and `lru` equal to the clock (9), but ends without a
`return` statement: no Value is returned.  `createStringObject`, which returns the result
of that call, returns no Value either. -/
theorem createEmbeddedStringObject_returns_nothing :
    (createEmbeddedStringObject emptyState (some [104, 105]) 2).1 = none ∧
    getObj (createEmbeddedStringObject emptyState (some [104, 105]) 2).2 0 =
      some ⟨OBJ_STRING, OBJ_ENCODING_EMBSTR, 9, 1, .buf 0⟩ ∧
    LRU_CLOCK emptyState = 9 ∧
    createStringObject emptyState (some [104, 105]) 2 =
      .ret none (createEmbeddedStringObject emptyState (some [104, 105]) 2).2 := by
  refine ⟨rfl, rfl, rfl, rfl⟩

theorem modCell_modCell (l : List Cell) (k : Nat) (f g : Cell → Cell) :
    modCell (modCell l k f) k g = modCell l k (fun c => g (f c)) := by
  induction l generalizing k with
  | nil => cases k <;> rfl
  | cons x l ih =>
    cases k with
    | zero => rfl
    | succ k => simp [modCell, ih]

theorem modCell_self (l : List Cell) (k : Nat) (f : Cell → Cell)
    (hf : ∀ c, l[k]? = some c → f c = c) : modCell l k f = l := by
  induction l generalizing k with
  | nil => cases k <;> rfl
  | cons x l ih =>
    cases k with
    | zero => simp [modCell, hf x (by simp)]
    | succ k =>
      simp only [modCell]
      rw [ih k (fun c hc => hf c (by simpa using hc))]

theorem mapObj_mapObj (f g : Robj → Robj) (b : Block) :
    (b.mapObj f).mapObj g = b.mapObj (fun r => g (f r)) := by
  cases b <;> rfl

theorem updObj_updObj (s : State) (a : Addr) (f g : Robj → Robj) :
    updObj (updObj s a f) a g = updObj s a (fun r => g (f r)) := by
  simp only [updObj, updCell, modCell_modCell, mapObj_mapObj]

theorem updObj_self (s : State) (a : Addr) (r : Robj) (f : Robj → Robj)
    (h : getObj s a = some r) (hf : f r = r) : updObj s a f = s := by
  obtain ⟨c, hc, _, h1, h2⟩ := getObj_cell s a r h
  have e : modCell s.heap a (fun c => { c with block := c.block.mapObj f }) = s.heap := by
    apply modCell_self
    intro c1 hc1
    rw [hc] at hc1
    cases hc1
    rw [h2 f, hf, h1]
  simp only [updObj, updCell, e]

/-- C19: `dupStringObject` on a Value whose type is not String stops in the
`serverAssert` on `o->type`, and on a String Value whose encoding is none of RAW, EMBSTR,
INT it stops in `serverPanic("Wrong encoding.")`.  In both cases the state at the stop is
the state on entry: no Value was created and no refcount changed. -/
theorem dupStringObject_fatal (s : State) (a : Addr) (r : Robj)
    (h : getObj s a = some r)
    (hbad : r.type ≠ OBJ_STRING ∨
      (r.encoding ≠ OBJ_ENCODING_RAW ∧ r.encoding ≠ OBJ_ENCODING_EMBSTR ∧
        r.encoding ≠ OBJ_ENCODING_INT)) :
    dupStringObject s a =
      .panic (if r.type ≠ OBJ_STRING then "o->type == OBJ_STRING" else "Wrong encoding.") s := by
  by_cases ht : r.type = OBJ_STRING
  · rcases hbad with hb | ⟨h1, h2, h3⟩
    · exact absurd ht hb
    · simp [dupStringObject, h, ht, h1, h2, h3]
  · simp [dupStringObject, h, ht]

theorem dupStringObject_fatal_witness :
    (getObj stringHtState 1 = some ⟨OBJ_STRING, OBJ_ENCODING_HT, 9, 1, .ref 0⟩ ∧
      (OBJ_STRING ≠ OBJ_STRING ∨
        (OBJ_ENCODING_HT ≠ OBJ_ENCODING_RAW ∧ OBJ_ENCODING_HT ≠ OBJ_ENCODING_EMBSTR ∧
          OBJ_ENCODING_HT ≠ OBJ_ENCODING_INT))) ∧
    dupStringObject stringHtState 1 =
      .panic (if OBJ_STRING ≠ OBJ_STRING then "o->type == OBJ_STRING" else "Wrong encoding.")
        stringHtState :=
  ⟨⟨by decide, by decide⟩,
    dupStringObject_fatal stringHtState 1 ⟨OBJ_STRING, OBJ_ENCODING_HT, 9, 1, .ref 0⟩
      (by decide) (by decide)⟩

theorem stripZeros_eq (buf : List UInt8) (i len : Nat) :
    stripZeros buf i len =
      match buf[i]? with
      | none => none
      | some b =>
        if b = 48 then
          match i with
          | 0 => none
          | j + 1 => stripZeros buf j (len - 1)
        else some (i, len) := by
  cases i <;> simp only [stripZeros]

theorem getElem?_mid (pre : List UInt8) (c : UInt8) (post : List UInt8) :
    (pre ++ c :: post)[pre.length]? = some c := by
  rw [getElem?_append_length]
  simp

theorem getElem?_zeros (pre : List UInt8) (c : UInt8) (k : Nat) (rest : List UInt8) :
    (pre ++ c :: (List.replicate (k + 1) 48 ++ rest))[pre.length + (k + 1)]? = some 48 := by
  rw [getElem?_append_add]
  simp only [List.getElem?_cons_succ]
  rw [List.getElem?_append_left (by simp)]
  simp

theorem stripZeros_zeros (pre : List UInt8) (c : UInt8) (k : Nat) (rest : List UInt8)
    (len : Nat) (hc : c ≠ 48) :
    stripZeros (pre ++ c :: (List.replicate k 48 ++ rest)) (pre.length + k) len =
      some (pre.length, len - k) := by
  induction k generalizing rest len with
  | zero =>
    rw [stripZeros_eq]
    simp only [Nat.add_zero, getElem?_mid, if_neg hc, Nat.sub_zero]
  | succ k ih =>
    have e : pre.length + (k + 1) = (pre.length + k) + 1 := rfl
    rw [stripZeros_eq, getElem?_zeros]
    simp only [if_true, e]
    have e2 : List.replicate (k + 1) (48 : UInt8) ++ rest = List.replicate k 48 ++ 48 :: rest := by
      rw [List.replicate_succ']
      simp
    rw [e2]
    simp only [Nat.add_eq]
    rw [ih]
    congr 2
    omega

theorem rdropWhile_zeros (l : List UInt8) :
    ∃ k, l = l.rdropWhile (fun b => b == 48) ++ List.replicate k 48 := by
  induction l using List.reverseRecOn with
  | nil => exact ⟨0, by simp⟩
  | append_singleton l x ih =>
    by_cases hx : x = 48
    · obtain ⟨k, hk⟩ := ih
      refine ⟨k + 1, ?_⟩
      rw [List.rdropWhile_concat_pos _ _ _ (by simp [hx]), List.replicate_succ', ← List.append_assoc, ← hk, hx]
    · refine ⟨0, ?_⟩
      rw [List.rdropWhile_concat_neg _ _ _ (by simp [hx])]
      simp



theorem snprintf_fits (text : List UInt8) (h : text.length ≤ 255) :
    snprintf 256 text = (text ++ [0], text.length) := by
  simp [snprintf, List.take_of_length_le h]

theorem strchr_point (intPart frac : List UInt8) (hint : ∀ b ∈ intPart, b ≠ 0)
    (hfrac : ∀ b ∈ frac, b ≠ 0 ∧ b ≠ 46) :
    strchr (intPart ++ [46] ++ frac ++ [0]) 46 = true := by
  have hall : ∀ a ∈ intPart ++ [46] ++ frac, (fun b : UInt8 => b != 0) a = true := by
    intro a ha
    simp only [List.mem_append, List.mem_singleton] at ha
    rcases ha with (ha | ha) | ha
    · simpa using hint a ha
    · subst ha; decide
    · simpa using (hfrac a ha).1
  unfold strchr
  rw [List.takeWhile_append_of_pos hall]
  simp

theorem handed_strip (pre : List UInt8) (c : UInt8) (k : Nat) (hc : c ≠ 48)
    (hlen : (pre ++ c :: List.replicate k 48).length ≤ 255)
    (hchr : strchr (pre ++ c :: List.replicate k 48 ++ [0]) 46 = true) (general : List UInt8)
    (hf : Int) (hhf : hf ≠ 0) :
    handedText (longDoubleArgs (.num (pre ++ c :: List.replicate k 48) general) hf) =
      some (if c = 46 then pre else pre ++ [c]) := by
  have hl : (pre ++ c :: List.replicate k 48).length = pre.length + k + 1 := by
    simp; omega
  have hbuf : pre ++ c :: List.replicate k 48 ++ [0] =
      pre ++ c :: (List.replicate k 48 ++ [0]) := by simp
  simp only [longDoubleArgs, hhf, ne_eq, not_false_eq_true, if_true, snprintf_fits _ hlen, hchr]
  rw [hl]
  simp only [Nat.add_one_ne_zero, if_false, Nat.add_sub_cancel]
  rw [hbuf, stripZeros_zeros pre c k [0] _ hc]
  simp only [getElem?_mid]
  by_cases h46 : c = 46
  · simp [h46, handedText]
    constructor
    · omega
    · rw [show pre.length + k + 1 - k - 1 = pre.length by omega]
      simp
  · simp [h46, handedText]
    constructor
    · omega
    · rw [show pre.length + k + 1 - k = pre.length + 1 by omega]
      rw [List.take_append_eq_append_take]
      simp



theorem longDoubleArgs_strips (intPart frac general : List UInt8) (hf : Int) (hhf : hf ≠ 0)
    (hint : ∀ b ∈ intPart, b ≠ 0) (hfrac : ∀ b ∈ frac, b ≠ 0 ∧ b ≠ 46)
    (hlen : (intPart ++ [46] ++ frac).length ≤ 255) :
    handedText (longDoubleArgs (.num (intPart ++ [46] ++ frac) general) hf) =
      some (strippedText intPart frac) := by
  obtain ⟨k, hk⟩ := rdropWhile_zeros frac
  have hchr := strchr_point intPart frac hint hfrac
  by_cases hnil : frac.rdropWhile (fun b => b == 48) = []
  · have hfr : frac = List.replicate k 48 := by rw [hk, hnil] ; simp
    have e : intPart ++ [46] ++ frac = intPart ++ 46 :: List.replicate k 48 := by
      rw [hfr]; simp
    rw [e] at hlen hchr ⊢
    rw [handed_strip intPart 46 k (by decide) hlen hchr general hf hhf]
    simp [strippedText, hnil]
  · obtain ⟨f2, c, hc0⟩ := (List.eq_nil_or_concat _).resolve_left hnil
    have hc : frac.rdropWhile (fun b => b == 48) = f2 ++ [c] := by simpa using hc0
    have hlast := List.rdropWhile_last_not (fun b : UInt8 => b == 48) frac hnil
    have hget : ∀ (l : List UInt8) (hl : l ≠ []), l = f2 ++ [c] → l.getLast hl = c := by
      intro l hl e
      subst e
      simp
    rw [hget _ hnil hc] at hlast
    have hc48 : c ≠ 48 := by
      intro h48
      apply hlast
      simp [h48]
    have hmem : c ∈ frac := by
      rw [hk, hc]
      simp
    have hc46 : c ≠ 46 := (hfrac c hmem).2
    have e : intPart ++ [46] ++ frac = (intPart ++ [46] ++ f2) ++ c :: List.replicate k 48 := by
      conv_lhs => rw [hk, hc]
      simp
    rw [e] at hlen hchr ⊢
    rw [handed_strip (intPart ++ [46] ++ f2) c k hc48 hlen hchr general hf hhf]
    simp [strippedText, hnil, hc46, hc]

theorem longDoubleArgs_examples :
    handedText (longDoubleArgs (.num (ascii "3.14000000000000000") (ascii "3.14")) 1) =
      some (ascii "3.14") ∧
    handedText (longDoubleArgs (.num (ascii "100.00000000000000000") (ascii "100")) 1) =
      some (ascii "100") ∧
    handedText (longDoubleArgs (.num (ascii "0.00000000000000000") (ascii "0")) 1) =
      some (ascii "0") ∧
    handedText (longDoubleArgs (.num (ascii "-2.50000000000000000") (ascii "-2.5")) 1) =
      some (ascii "-2.5") := by
  refine ⟨by rfl, by rfl, by rfl, by rfl⟩

/-- C16 (defect of the code): for every value of the flag, the text handed to
`createStringObject` for +infinity is "inf" with length 3 and for -infinity "-inf" with
length 4, and `createStringObject` takes the embedded branch; there
`createEmbeddedStringObject` fills an EMBSTR chunk with the text and ends without a
`return` statement, so `createStringObjectFromLongDouble` returns no Value. -/
theorem createStringObjectFromLongDouble_inf_returns_nothing (humanfriendly : Int) :
    longDoubleArgs (.inf true) humanfriendly = some ([105, 110, 102], 3) ∧
    longDoubleArgs (.inf false) humanfriendly = some ([45, 105, 110, 102], 4) ∧
    createStringObjectFromLongDouble emptyState (.inf true) humanfriendly =
      .ret none
        { heap := [⟨.embstr ⟨OBJ_STRING, OBJ_ENCODING_EMBSTR, 9, 1, .buf 0⟩ 3 3 SDS_TYPE_8
            [105, 110, 102, 0], 0⟩],
          integers := [], lruclock := 9 } ∧
    createStringObjectFromLongDouble emptyState (.inf false) humanfriendly =
      .ret none
        { heap := [⟨.embstr ⟨OBJ_STRING, OBJ_ENCODING_EMBSTR, 9, 1, .buf 0⟩ 4 4 SDS_TYPE_8
            [45, 105, 110, 102, 0], 0⟩],
          integers := [], lruclock := 9 } := by
  refine ⟨rfl, rfl, rfl, rfl⟩

set_option maxRecDepth 100000 in
/-- C18 (defect of the code): the `"%.17Lf"` rendering of 2^1000 has 320 bytes (302 digits,
the point, 17 zeros).  `snprintf` stores only its first 255 bytes in `buf[256]` and returns
320; the stored string has no `'.'`, so nothing is stripped, and `createStringObject` is
handed `buf` with length 320, more bytes than `buf` holds.  The claim's text for this value
is the 302 digits. -/
theorem longDoubleArgs_long_rendering_not_stripped :
    fixedPow1000.length = 320 ∧
    longDoubleArgs pow1000 1 = some (fixedPow1000.take 255 ++ [0], 320) ∧
    handedText (longDoubleArgs pow1000 1) = none ∧
    strippedText digitsPow1000 (List.replicate 17 48) = digitsPow1000 ∧
    digitsPow1000.length = 302 := by
  refine ⟨by rfl, by rfl, by rfl, by decide, by rfl⟩

theorem andThen_ret (x : Outcome Unit) : x.andThen (fun s => .ret () s) = x := by
  cases x <;> rfl

theorem incrRefCount_eq (s : State) (a : Addr) (r : Robj) (h : getObj s a = some r) :
    incrRefCount s a = .ret () (updObj s a (fun x => { x with refcount := x.refcount + 1 })) := by
  simp [incrRefCount, h]

theorem decrRefCount_eq_of_two_le (s : State) (a : Addr) (r : Robj) (h : getObj s a = some r)
    (hrc : 2 ≤ r.refcount) :
    decrRefCount s a = .ret () (updObj s a (fun x => { x with refcount := x.refcount - 1 })) := by
  have h1 : ¬ r.refcount ≤ 0 := by omega
  have h2 : ¬ r.refcount = 1 := by omega
  simp [decrRefCount, h, h1, h2]

theorem decrRefCount_eq_of_one (s : State) (a : Addr) (r : Robj) (h : getObj s a = some r)
    (hrc : r.refcount = 1) :
    decrRefCount s a = (freeByType s r).andThen (fun s1 => zfree s1 (.ref a)) := by
  simp [decrRefCount, h, hrc]

theorem incr_then_decr (s : State) (a : Addr) (r : Robj) (h : getObj s a = some r)
    (hrc : 1 ≤ r.refcount) :
    decrRefCount (updObj s a (fun x => { x with refcount := x.refcount + 1 })) a = .ret () s := by
  have h1 := getObj_updObj_same s a r (fun x => { x with refcount := x.refcount + 1 }) h
  rw [decrRefCount_eq_of_two_le _ a _ h1 (by simp; omega), updObj_updObj]
  congr 1
  apply updObj_self s a r _ h
  cases r
  simp

theorem zfree_ret (s s2 : State) (a : Addr) (h : zfree s (.ref a) = .ret () s2) :
    (s2.heap[a]?).map Cell.frees = some 1 ∧ getObj s2 a = none := by
  unfold zfree at h
  cases hb : liveBlock s a with
  | none => simp [hb] at h
  | some b =>
    simp only [hb, Outcome.ret.injEq, true_and] at h
    subst h
    unfold liveBlock at hb
    cases hc : s.heap[a]? with
    | none => simp [hc] at hb
    | some c =>
      have hf : c.frees = 0 := by
        by_contra hne
        simp [hc, hne] at hb
      have e : (release s a).heap[a]? = some { c with frees := c.frees + 1 } := by
        unfold release
        rw [heap_updCell]
        simp [hc]
      refine ⟨by simp [e, hf], ?_⟩
      simp [getObj, liveBlock, e]

theorem decrRefCount_destroys (s s2 : State) (a : Addr) (r : Robj) (h : getObj s a = some r)
    (hrc : r.refcount = 1) (hd : decrRefCount s a = .ret () s2) :
    (s2.heap[a]?).map Cell.frees = some 1 ∧ getObj s2 a = none := by
  rw [decrRefCount_eq_of_one s a r h hrc] at hd
  cases hf : freeByType s r with
  | ret u s1 =>
    rw [hf] at hd
    exact zfree_ret s1 s2 a hd
  | panic m s1 => rw [hf] at hd; cases hd
  | undefined => rw [hf] at hd; cases hd

theorem applyRefOp_dead (s : State) (a : Addr) (h : getObj s a = none) (op : RefOp) :
    applyRefOp s a op = .undefined := by
  cases op <;> simp [applyRefOp, incrRefCount, decrRefCount, h]

theorem runRefOps_dead (s : State) (a : Addr) (h : getObj s a = none) (op : RefOp)
    (ops : List RefOp) : runRefOps s a (op :: ops) = .undefined := by
  simp [runRefOps, applyRefOp_dead s a h, Outcome.andThen]



theorem applyRefOp_destroys_iff (s s2 : State) (a : Addr) (r : Robj) (op : RefOp)
    (h : getObj s a = some r) (hop : applyRefOp s a op = .ret () s2) :
    getObj s2 a = none ↔ (op = .decr ∧ r.refcount = 1) := by
  cases op with
  | incr =>
    simp only [applyRefOp, incrRefCount_eq s a r h, Outcome.ret.injEq, true_and] at hop
    subst hop
    simp [getObj_updObj_same s a r _ h]
  | decr =>
    simp only [applyRefOp] at hop
    by_cases h1 : r.refcount = 1
    · simp [h1, (decrRefCount_destroys s s2 a r h h1 hop).2]
    · by_cases h0 : r.refcount ≤ 0
      · simp [decrRefCount, h, h0] at hop
      · rw [decrRefCount_eq_of_two_le s a r h (by omega)] at hop
        simp only [Outcome.ret.injEq, true_and] at hop
        subst hop
        simp [getObj_updObj_same s a r _ h, h1]

theorem runRefOps_refcount_pos (a : Addr) (ops : List RefOp) :
    ∀ (s : State) (r : Robj), getObj s a = some r → 1 ≤ r.refcount →
      ∀ s1 r1, runRefOps s a ops = .ret () s1 → getObj s1 a = some r1 → 1 ≤ r1.refcount := by
  induction ops with
  | nil =>
    intro s r h hrc s1 r1 hrun h1
    simp only [runRefOps, Outcome.ret.injEq, true_and] at hrun
    subst hrun
    rw [h] at h1
    cases h1
    exact hrc
  | cons op ops ih =>
    intro s r h hrc s1 r1 hrun h1
    simp only [runRefOps] at hrun
    cases hstep : applyRefOp s a op with
    | panic m s2 => rw [hstep] at hrun; cases hrun
    | undefined => rw [hstep] at hrun; cases hrun
    | ret u s2 =>
      rw [hstep] at hrun
      simp only [Outcome.andThen] at hrun
      cases hlive : getObj s2 a with
      | none =>
        cases ops with
        | nil =>
          simp only [runRefOps, Outcome.ret.injEq, true_and] at hrun
          subst hrun
          rw [hlive] at h1
          cases h1
        | cons op2 ops2 =>
          rw [runRefOps_dead s2 a hlive] at hrun
          cases hrun
      | some r2 =>
        refine ih s2 r2 hlive ?_ s1 r1 hrun h1
        cases op with
        | incr =>
          simp only [applyRefOp, incrRefCount_eq s a r h, Outcome.ret.injEq, true_and] at hstep
          subst hstep
          rw [getObj_updObj_same s a r _ h] at hlive
          cases hlive
          simp
          omega
        | decr =>
          simp only [applyRefOp] at hstep
          by_cases hone : r.refcount = 1
          · rw [(decrRefCount_destroys s s2 a r h hone hstep).2] at hlive
            cases hlive
          · rw [decrRefCount_eq_of_two_le s a r h (by omega)] at hstep
            simp only [Outcome.ret.injEq, true_and] at hstep
            subst hstep
            rw [getObj_updObj_same s a r _ h] at hlive
            cases hlive
            simp
            omega

theorem runRefOps_incr_decr (a : Addr) (k : Nat) :
    ∀ (s : State) (r : Robj) (rest : List RefOp), getObj s a = some r → 1 ≤ r.refcount →
      runRefOps s a (List.replicate k .incr ++ List.replicate k .decr ++ rest) =
        runRefOps s a rest := by
  induction k with
  | zero => intro s r rest _ _; simp
  | succ k ih =>
    intro s r rest h hrc
    have e : List.replicate (k + 1) RefOp.incr ++ List.replicate (k + 1) RefOp.decr ++ rest =
        RefOp.incr :: (List.replicate k RefOp.incr ++ List.replicate k RefOp.decr ++
          (RefOp.decr :: rest)) := by
      rw [List.replicate_succ, List.replicate_succ' k RefOp.decr]
      simp
    have h1 := getObj_updObj_same s a r (fun x => { x with refcount := x.refcount + 1 }) h
    rw [e]
    simp only [runRefOps, applyRefOp, incrRefCount_eq s a r h, Outcome.andThen]
    rw [ih _ _ _ h1 (by simp; omega)]
    simp only [runRefOps, applyRefOp, incr_then_decr s a r h hrc, Outcome.andThen]



theorem runPoolOps_safe (p : Platform) (v : Int) (a : Addr) (hv0 : 0 ≤ v)
    (hv1 : v < (p.OBJ_SHARED_INTEGERS : Int)) (ops : List PoolOp) :
    ∀ (s : State) (r : Robj), s.integers[v.toNat]? = some a → getObj s a = some r →
      1 ≤ r.refcount → releasesOnlyTaken r.refcount ops = true →
      ∃ s1, runPoolOps p s v a ops = .ret () s1 ∧
        getObj s1 a = some { r with refcount := countAfter r.refcount ops } ∧
        1 ≤ countAfter r.refcount ops ∧ s1.integers = s.integers := by
  induction ops with
  | nil =>
    intro s r _ hr hrc _
    exact ⟨s, rfl, by simpa [countAfter] using hr, by simpa [countAfter] using hrc, rfl⟩
  | cons op ops ih =>
    intro s r ha hr hrc hsafe
    cases op with
    | create =>
      have hstep := createStringObjectFromLongLong_shared p s v a r hv0 hv1 ha hr
      have h1 := getObj_updObj_same s a r (fun x => { x with refcount := x.refcount + 1 }) hr
      obtain ⟨s1, e1, e2, e3, e4⟩ := ih _ _ (by exact ha) h1 (by simp; omega)
        (by simpa [releasesOnlyTaken] using hsafe)
      refine ⟨s1, ?_, ?_, ?_, ?_⟩
      · simp only [runPoolOps, applyPoolOp, hstep, Outcome.andThen]
        exact e1
      · simpa [countAfter] using e2
      · simpa [countAfter] using e3
      · exact e4
    | incr =>
      have h1 := getObj_updObj_same s a r (fun x => { x with refcount := x.refcount + 1 }) hr
      obtain ⟨s1, e1, e2, e3, e4⟩ := ih _ _ (by exact ha) h1 (by simp; omega)
        (by simpa [releasesOnlyTaken] using hsafe)
      refine ⟨s1, ?_, ?_, ?_, ?_⟩
      · simp only [runPoolOps, applyPoolOp, incrRefCount_eq s a r hr, Outcome.andThen]
        exact e1
      · simpa [countAfter] using e2
      · simpa [countAfter] using e3
      · exact e4
    | decr =>
      simp only [releasesOnlyTaken, Bool.and_eq_true, decide_eq_true_eq] at hsafe
      have h1 := getObj_updObj_same s a r (fun x => { x with refcount := x.refcount - 1 }) hr
      obtain ⟨s1, e1, e2, e3, e4⟩ := ih _ _ (by exact ha) h1 (by simp; omega)
        (by simpa using hsafe.2)
      refine ⟨s1, ?_, ?_, ?_, ?_⟩
      · simp only [runPoolOps, applyPoolOp, decrRefCount_eq_of_two_le s a r hr hsafe.1,
          Outcome.andThen]
        exact e1
      · simpa [countAfter] using e2
      · simpa [countAfter] using e3
      · exact e4

theorem release_dead (s : State) (a : Addr) (r : Robj) (h : getObj s a = some r) :
    getObj (release s a) a = none ∧ ((release s a).heap[a]?).map Cell.frees = some 1 := by
  obtain ⟨c, hc, hf, _, _⟩ := getObj_cell s a r h
  have e : (release s a).heap[a]? = some { c with frees := c.frees + 1 } := by
    unfold release
    rw [heap_updCell]
    simp [hc]
  exact ⟨by simp [getObj, liveBlock, e], by simp [e, hf]⟩

theorem liveBlock_release_ne (s : State) (t b : Addr) (h : b ≠ t) :
    liveBlock (release s t) b = liveBlock s b := by
  unfold liveBlock release
  rw [heap_updCell]
  simp [h]

theorem ne_of_getObj_of_kind (s : State) (a t : Addr) (r : Robj) (b : Block)
    (h : getObj s a = some r) (hb : liveBlock s t = some b)
    (hk : ∀ o, b ≠ .robj o) (hk2 : ∀ o l al f bf, b ≠ .embstr o l al f bf) : a ≠ t := by
  intro e
  subst e
  unfold getObj at h
  rw [hb] at h
  cases b <;> simp at h
  · exact hk _ rfl
  · exact hk2 _ _ _ _ _ rfl

theorem getObj_live (s : State) (a : Addr) (r : Robj) (h : getObj s a = some r) :
    ∃ b, liveBlock s a = some b := by
  cases hl : liveBlock s a with
  | none => simp [getObj, hl] at h
  | some b => exact ⟨b, rfl⟩

theorem sdsfree_owned (s : State) (a : Addr) (r : Robj) (p : Ptr) (h : getObj s a = some r)
    (hp : (p == .null || pointsTo s p isSds) = true) :
    ∃ s1, sdsfree s p = .ret () s1 ∧ liveBlock s1 a = liveBlock s a := by
  cases p with
  | null => exact ⟨s, rfl, rfl⟩
  | long v => simp [pointsTo] at hp
  | buf t => simp [pointsTo] at hp
  | ref t =>
    cases hl : liveBlock s t with
    | none => simp [pointsTo, hl] at hp
    | some b =>
      cases b <;> simp [pointsTo, hl, isSds] at hp
      refine ⟨release s t, by simp [sdsfree, hl], ?_⟩
      exact liveBlock_release_ne s t a
        (ne_of_getObj_of_kind s a t r _ h hl (by simp) (by simp))

theorem quicklistRelease_owned (s : State) (a : Addr) (r : Robj) (p : Ptr)
    (h : getObj s a = some r) (hp : pointsTo s p isQuicklist = true) :
    ∃ s1, quicklistRelease s p = .ret () s1 ∧ liveBlock s1 a = liveBlock s a := by
  cases p with
  | null => simp [pointsTo] at hp
  | long v => simp [pointsTo] at hp
  | buf t => simp [pointsTo] at hp
  | ref t =>
    cases hl : liveBlock s t with
    | none => simp [pointsTo, hl] at hp
    | some b =>
      cases b <;> simp [pointsTo, hl, isQuicklist] at hp
      refine ⟨release s t, by simp [quicklistRelease, hl], ?_⟩
      exact liveBlock_release_ne s t a
        (ne_of_getObj_of_kind s a t r _ h hl (by simp) (by simp))

theorem dictRelease_owned (s : State) (a : Addr) (r : Robj) (p : Ptr)
    (h : getObj s a = some r) (hp : pointsTo s p isDict = true) :
    ∃ s1, dictRelease s p = .ret () s1 ∧ liveBlock s1 a = liveBlock s a := by
  cases p with
  | null => simp [pointsTo] at hp
  | long v => simp [pointsTo] at hp
  | buf t => simp [pointsTo] at hp
  | ref t =>
    cases hl : liveBlock s t with
    | none => simp [pointsTo, hl] at hp
    | some b =>
      cases b <;> simp [pointsTo, hl, isDict] at hp
      refine ⟨release s t, by simp [dictRelease, hl], ?_⟩
      exact liveBlock_release_ne s t a
        (ne_of_getObj_of_kind s a t r _ h hl (by simp) (by simp))

theorem zfree_owned (s : State) (a : Addr) (p : Ptr) (hp : ownsBuffer s a p = true) :
    ∃ s1, zfree s p = .ret () s1 ∧ liveBlock s1 a = liveBlock s a := by
  cases p with
  | null => exact ⟨s, rfl, rfl⟩
  | long v => simp [ownsBuffer] at hp
  | buf t => simp [ownsBuffer] at hp
  | ref t =>
    simp only [ownsBuffer, Bool.and_eq_true, bne_iff_ne, ne_eq] at hp
    cases hl : liveBlock s t with
    | none => simp [hl] at hp
    | some b =>
      refine ⟨release s t, by simp [zfree, hl], ?_⟩
      exact liveBlock_release_ne s t a (fun e => hp.1 e.symm)

theorem zset_owned (s : State) (a : Addr) (r : Robj) (zs d l : Addr)
    (h : getObj s a = some r) (hz : liveBlock s zs = some (.zset (some d) (some l)))
    (hd : pointsTo s (.ref d) isDict = true) (hl : pointsTo s (.ref l) isZskiplist = true) :
    ∃ s1, ((dictRelease s (.ref d)).andThen fun s1 =>
        (zslFree s1 (.ref l)).andThen fun s2 => zfree s2 (.ref zs)) = .ret () s1 ∧
      liveBlock s1 a = liveBlock s a := by
  cases hdl : liveBlock s d with
  | none => simp [pointsTo, hdl] at hd
  | some bd =>
    cases bd <;> simp [pointsTo, hdl, isDict] at hd
    cases hll : liveBlock s l with
    | none => simp [pointsTo, hll] at hl
    | some bl =>
      cases bl <;> simp [pointsTo, hll, isZskiplist] at hl
      have hld : l ≠ d := by
        intro e
        rw [e, hdl] at hll
        cases hll
      have hzd : zs ≠ d := by
        intro e
        rw [e, hdl] at hz
        cases hz
      have hzl : zs ≠ l := by
        intro e
        rw [e, hll] at hz
        cases hz
      have had : a ≠ d := ne_of_getObj_of_kind s a d r _ h hdl (by simp) (by simp)
      have hal : a ≠ l := ne_of_getObj_of_kind s a l r _ h hll (by simp) (by simp)
      have haz : a ≠ zs := ne_of_getObj_of_kind s a zs r _ h hz (by simp) (by simp)
      have e1 : liveBlock (release s d) l = some .zskiplist := by
        rw [liveBlock_release_ne s d l hld, hll]
      have e2 : liveBlock (release (release s d) l) zs = some (.zset (some d) (some l)) := by
        rw [liveBlock_release_ne _ l zs hzl, liveBlock_release_ne s d zs hzd, hz]
      refine ⟨release (release (release s d) l) zs, ?_, ?_⟩
      · simp [dictRelease, hdl, zslFree, e1, zfree, e2, Outcome.andThen]
      · rw [liveBlock_release_ne _ zs a haz, liveBlock_release_ne _ l a hal,
          liveBlock_release_ne s d a had]

theorem freeByType_owned (s : State) (a : Addr) (r : Robj) (h : getObj s a = some r)
    (hown : ownsPayload s a r = true) :
    ∃ s1, freeByType s r = .ret () s1 ∧ liveBlock s1 a = liveBlock s a := by
  unfold ownsPayload at hown
  unfold freeByType
  by_cases t0 : r.type = OBJ_STRING
  · simp only [t0, if_true] at hown ⊢
    unfold freeStringObject
    by_cases e0 : r.encoding = OBJ_ENCODING_RAW
    · simp only [e0, if_true] at hown ⊢
      exact sdsfree_owned s a r r.ptr h hown
    · simp only [e0, if_false]
      exact ⟨s, rfl, rfl⟩
  · simp only [t0, if_false] at hown ⊢
    by_cases t1 : r.type = OBJ_LIST
    · simp only [t1, if_true, Bool.and_eq_true, decide_eq_true_eq] at hown ⊢
      unfold freeListObject
      simp only [hown.1, if_true]
      exact quicklistRelease_owned s a r r.ptr h hown.2
    · simp only [t1, if_false] at hown ⊢
      by_cases t2 : r.type = OBJ_SET
      · simp only [t2, if_true] at hown ⊢
        unfold freeSetObject
        by_cases e0 : r.encoding = OBJ_ENCODING_HT
        · simp only [e0, if_true] at hown ⊢
          exact dictRelease_owned s a r r.ptr h hown
        · simp only [e0, if_false] at hown ⊢
          by_cases e1 : r.encoding = OBJ_ENCODING_INTSET
          · simp only [e1, if_true] at hown ⊢
            exact zfree_owned s a r.ptr hown
          · simp [e1] at hown
      · simp only [t2, if_false] at hown ⊢
        by_cases t3 : r.type = OBJ_ZSET
        · simp only [t3, if_true] at hown ⊢
          unfold freeZsetObject
          by_cases e0 : r.encoding = OBJ_ENCODING_SKIPLIST
          · simp only [e0, if_true] at hown ⊢
            unfold ownsZset at hown
            cases hp : r.ptr with
            | null => simp [hp] at hown
            | long v => simp [hp] at hown
            | buf t => simp [hp] at hown
            | ref zs =>
              simp only [hp] at hown ⊢
              cases hz : liveBlock s zs with
              | none => simp [hz] at hown
              | some bz =>
                cases bz with
                | zset od ol =>
                  cases od with
                  | none => simp [hz] at hown
                  | some d =>
                    cases ol with
                    | none => simp [hz] at hown
                    | some l =>
                      simp only [hz, Bool.and_eq_true] at hown
                      simp only [fieldPtr]
                      exact zset_owned s a r zs d l h hz hown.1 hown.2
                | _ => simp [hz] at hown
          · simp only [e0, if_false] at hown ⊢
            by_cases e1 : r.encoding = OBJ_ENCODING_ZIPLIST
            · simp only [e1, if_true] at hown ⊢
              exact zfree_owned s a r.ptr hown
            · simp [e1] at hown
        · simp only [t3, if_false] at hown ⊢
          by_cases t4 : r.type = OBJ_HASH
          · simp only [t4, if_true] at hown ⊢
            unfold freeHashObject
            by_cases e0 : r.encoding = OBJ_ENCODING_HT
            · simp only [e0, if_true] at hown ⊢
              exact dictRelease_owned s a r r.ptr h hown
            · simp only [e0, if_false] at hown ⊢
              by_cases e1 : r.encoding = OBJ_ENCODING_ZIPLIST
              · simp only [e1, if_true] at hown ⊢
                exact zfree_owned s a r.ptr hown
              · simp [e1] at hown
          · simp [t4] at hown



theorem freeByType_rejected (s : State) (r : Robj) (hrej : destructorRejects r = true) :
    ∃ m, freeByType s r = .panic m s := by
  unfold destructorRejects at hrej
  unfold freeByType
  by_cases t0 : r.type = OBJ_STRING
  · simp [t0] at hrej
  · simp only [t0, if_false] at hrej ⊢
    by_cases t1 : r.type = OBJ_LIST
    · simp only [t1, if_true, decide_eq_true_eq] at hrej ⊢
      exact ⟨"Unknown list encoding type", by simp [freeListObject, hrej]⟩
    · simp only [t1, if_false] at hrej ⊢
      by_cases t2 : r.type = OBJ_SET
      · simp only [t2, if_true, decide_eq_true_eq] at hrej ⊢
        exact ⟨"Unknown set encoding type", by simp [freeSetObject, hrej.1, hrej.2]⟩
      · simp only [t2, if_false] at hrej ⊢
        by_cases t3 : r.type = OBJ_ZSET
        · simp only [t3, if_true, decide_eq_true_eq] at hrej ⊢
          exact ⟨"Unknown sorted set encoding", by simp [freeZsetObject, hrej.1, hrej.2]⟩
        · simp only [t3, if_false] at hrej ⊢
          by_cases t4 : r.type = OBJ_HASH
          · simp only [t4, if_true, decide_eq_true_eq] at hrej ⊢
            exact ⟨"Unknown hash encoding type", by simp [freeHashObject, hrej.1, hrej.2]⟩
          · simp only [t4, if_false]
            exact ⟨_, rfl⟩

theorem runRefOps_append (a : Addr) (l1 l2 : List RefOp) :
    ∀ s : State, runRefOps s a (l1 ++ l2) =
      (runRefOps s a l1).andThen (fun s1 => runRefOps s1 a l2) := by
  induction l1 with
  | nil => intro s; rfl
  | cons op l1 ih =>
    intro s
    simp only [List.cons_append, runRefOps]
    cases hstep : applyRefOp s a op with
    | ret u s1 => exact ih s1
    | panic m s1 => rfl
    | undefined => rfl

theorem runRefOps_incr (a : Addr) (m : Nat) :
    ∀ (s : State) (r : Robj), getObj s a = some r →
      ∃ s1, runRefOps s a (List.replicate m .incr) = .ret () s1 ∧
        getObj s1 a = some { r with refcount := r.refcount + m } := by
  induction m with
  | zero =>
    intro s r h
    exact ⟨s, rfl, by simpa using h⟩
  | succ m ih =>
    intro s r h
    have h1 := getObj_updObj_same s a r (fun x => { x with refcount := x.refcount + 1 }) h
    obtain ⟨s1, e1, e2⟩ := ih _ _ h1
    refine ⟨s1, ?_, ?_⟩
    · simp only [List.replicate_succ, runRefOps, applyRefOp, incrRefCount_eq s a r h,
        Outcome.andThen]
      exact e1
    · rw [e2]
      simp
      omega

theorem runRefOps_prefix (a : Addr) (s : State) (r : Robj) (k j : Nat)
    (h : getObj s a = some r) (hrc : 1 ≤ r.refcount) (hj : j ≤ k) :
    ∃ s1, runRefOps s a (List.replicate k .incr ++ List.replicate j .decr) = .ret () s1 ∧
      getObj s1 a = some { r with refcount := r.refcount + ((k - j : Nat) : Int) } := by
  obtain ⟨s1, e1, e2⟩ := runRefOps_incr a (k - j) s r h
  refine ⟨s1, ?_, e2⟩
  have e : List.replicate k RefOp.incr ++ List.replicate j RefOp.decr =
      List.replicate (k - j) RefOp.incr ++
        (List.replicate j RefOp.incr ++ List.replicate j RefOp.decr ++ []) := by
    rw [List.append_nil, ← List.append_assoc, ← List.replicate_add]
    congr 2
    omega
  rw [e, runRefOps_append, e1]
  simp only [Outcome.andThen]
  rw [runRefOps_incr_decr a j s1 _ [] e2 (by simp; omega)]
  rfl

theorem runRefOps_last (a : Addr) (s : State) (r : Robj) (k : Nat)
    (h : getObj s a = some r) (hrc : r.refcount = 1) :
    runRefOps s a (List.replicate k .incr ++ List.replicate (k + 1) .decr) =
      decrRefCount s a := by
  have e : List.replicate k RefOp.incr ++ List.replicate (k + 1) RefOp.decr =
      List.replicate k RefOp.incr ++ List.replicate k RefOp.decr ++ [RefOp.decr] := by
    rw [List.replicate_succ' k RefOp.decr]
    simp
  rw [e, runRefOps_incr_decr a k s r _ h (by omega)]
  simp only [runRefOps, applyRefOp]
  rw [andThen_ret]

theorem decrRefCount_owned (s : State) (a : Addr) (r : Robj) (h : getObj s a = some r)
    (hrc : r.refcount = 1) (hown : ownsPayload s a r = true) :
    ∃ s2, decrRefCount s a = .ret () s2 ∧ (s2.heap[a]?).map Cell.frees = some 1 ∧
      getObj s2 a = none := by
  obtain ⟨s1, e1, e2⟩ := freeByType_owned s a r h hown
  obtain ⟨b, hb⟩ := getObj_live s a r h
  have hz : zfree s1 (.ref a) = .ret () (release s1 a) := by
    simp [zfree, e2, hb]
  refine ⟨release s1 a, ?_, zfree_ret s1 _ a hz⟩
  rw [decrRefCount_eq_of_one s a r h hrc, e1]
  exact hz

theorem decrRefCount_rejected (s : State) (a : Addr) (r : Robj) (h : getObj s a = some r)
    (hrc : r.refcount = 1) (hrej : destructorRejects r = true) :
    ∃ m, decrRefCount s a = .panic m s := by
  obtain ⟨m, e⟩ := freeByType_rejected s r hrej
  exact ⟨m, by rw [decrRefCount_eq_of_one s a r h hrc, e]; rfl⟩



theorem run_createRawStringObject (s : State) (b : Option (List UInt8)) (len k : Nat) :
    ∃ s2, runRefOps (createRawStringObject s b len).2 (createRawStringObject s b len).1
        (List.replicate k .incr ++ List.replicate (k + 1) .decr) = .ret () s2 ∧
      ReleasedOnce s (createRawStringObject s b len).2 s2 2 := by
  rw [runRefOps_last _ _ _ k (getObj_createRawStringObject s b len) rfl]
  exact decrRefCount_createRawStringObject s b len

theorem run_createQuicklistObject (s : State) (k : Nat) :
    ∃ s2, runRefOps (createQuicklistObject s).2 (createQuicklistObject s).1
        (List.replicate k .incr ++ List.replicate (k + 1) .decr) = .ret () s2 ∧
      ReleasedOnce s (createQuicklistObject s).2 s2 2 := by
  rw [runRefOps_last _ _ _ k (getObj_createQuicklistObject s).1 rfl]
  exact decrRefCount_createQuicklistObject s

theorem run_createSetObject (s : State) (k : Nat) :
    ∃ s2, runRefOps (createSetObject s).2 (createSetObject s).1
        (List.replicate k .incr ++ List.replicate (k + 1) .decr) = .ret () s2 ∧
      ReleasedOnce s (createSetObject s).2 s2 2 := by
  rw [runRefOps_last _ _ _ k (getObj_createSetObject s).1 rfl]
  exact decrRefCount_createSetObject s

theorem run_createIntsetObject (s : State) (k : Nat) :
    ∃ s2, runRefOps (createIntsetObject s).2 (createIntsetObject s).1
        (List.replicate k .incr ++ List.replicate (k + 1) .decr) = .ret () s2 ∧
      ReleasedOnce s (createIntsetObject s).2 s2 2 := by
  rw [runRefOps_last _ _ _ k (getObj_createIntsetObject s).1 rfl]
  exact decrRefCount_createIntsetObject s

theorem run_createHashObject (s : State) (k : Nat) :
    ∃ s2, runRefOps (createHashObject s).2 (createHashObject s).1
        (List.replicate k .incr ++ List.replicate (k + 1) .decr) = .ret () s2 ∧
      ReleasedOnce s (createHashObject s).2 s2 2 := by
  rw [runRefOps_last _ _ _ k (getObj_createHashObject s).1 rfl]
  exact decrRefCount_createHashObject s

theorem run_createZsetObject (s : State) (k : Nat) :
    ∃ s2, runRefOps (createZsetObject s).2 (createZsetObject s).1
        (List.replicate k .incr ++ List.replicate (k + 1) .decr) = .ret () s2 ∧
      ReleasedOnce s (createZsetObject s).2 s2 4 := by
  rw [runRefOps_last _ _ _ k (getObj_createZsetObject s).1 rfl]
  exact decrRefCount_createZsetObject s

theorem run_createZsetZiplistObject (s : State) (k : Nat) :
    ∃ s2, runRefOps (createZsetZiplistObject s).2 (createZsetZiplistObject s).1
        (List.replicate k .incr ++ List.replicate (k + 1) .decr) = .ret () s2 ∧
      ReleasedOnce s (createZsetZiplistObject s).2 s2 2 := by
  rw [runRefOps_last _ _ _ k (getObj_createZsetZiplistObject s).1 rfl]
  exact decrRefCount_createZsetZiplistObject s

theorem run_createZiplistObject (s : State) (k : Nat) :
    runRefOps (createZiplistObject s).2 (createZiplistObject s).1
        (List.replicate k .incr ++ List.replicate (k + 1) .decr) =
      .panic "Unknown list encoding type" (createZiplistObject s).2 := by
  rw [runRefOps_last _ _ _ k (getObj_createZiplistObject s).1 rfl]
  exact decrRefCount_createZiplistObject s

theorem run_createStringObjectFromLongLong (p : Platform) (s : State) (v : Int) (k : Nat)
    (hv : v < 0 ∨ (p.OBJ_SHARED_INTEGERS : Int) ≤ v) :
    ∃ a s1 s2, createStringObjectFromLongLong p s v = .ret (some a) s1 ∧
      runRefOps s1 a (List.replicate k .incr ++ List.replicate (k + 1) .decr) = .ret () s2 ∧
      ReleasedOnce s s1 s2 (if p.LONG_MIN ≤ v ∧ v ≤ p.LONG_MAX then 1 else 2) := by
  obtain ⟨a, s1, s2, hc, hd, hrel⟩ := decrRefCount_createStringObjectFromLongLong p s v hv
  have hg : ∃ r, getObj s1 a = some r ∧ r.refcount = 1 := by
    obtain ⟨h, i, c⟩ := s
    by_cases hl : p.LONG_MIN ≤ v ∧ v ≤ p.LONG_MAX
    · rw [createStringObjectFromLongLong_int p h i c v hv hl] at hc
      simp only [Outcome.ret.injEq, Option.some.injEq] at hc
      obtain ⟨ha, hs⟩ := hc
      subst ha hs
      exact ⟨_, getObj_append_length_robj h i c _ [], rfl⟩
    · rw [createStringObjectFromLongLong_raw p h i c v hv hl] at hc
      simp only [Outcome.ret.injEq, Option.some.injEq] at hc
      obtain ⟨ha, hs⟩ := hc
      subst ha hs
      exact ⟨_, getObj_append_succ_robj h i c _ _ [], rfl⟩
  obtain ⟨r, hr, hrc⟩ := hg
  exact ⟨a, s1, s2, hc, by rw [runRefOps_last a s1 r k hr hrc]; exact hd, hrel⟩

/-- C17 (the claim as stated fails): the List Value that `createZiplistObject` returns has
refcount 1; after one `incrRefCount` and one `decrRefCount` the second `decrRefCount`, made
at refcount 1, does not destroy it: `freeListObject` stops in `serverPanic` and the Value
is still allocated and unreleased. -/
theorem refcount_last_decrement_may_panic :
    getObj (createZiplistObject emptyState).2 1 =
      some ⟨OBJ_LIST, OBJ_ENCODING_ZIPLIST, 9, 1, .ref 0⟩ ∧
    runRefOps (createZiplistObject emptyState).2 1 [.incr, .decr, .decr] =
      .panic "Unknown list encoding type" (createZiplistObject emptyState).2 ∧
    ¬ ∃ s2, runRefOps (createZiplistObject emptyState).2 1 [.incr, .decr, .decr] =
      .ret () s2 := by
  refine ⟨rfl, rfl, ?_⟩
  rintro ⟨s2, h⟩
  have e : runRefOps (createZiplistObject emptyState).2 1 [.incr, .decr, .decr] =
      .panic "Unknown list encoding type" (createZiplistObject emptyState).2 := rfl
  rw [e] at h
  cases h

/-- C17 (amended): for a Value with refcount 1 (as every constructor leaves it) and every
sequence of `incrRefCount` / `decrRefCount` calls on it: the refcount observed after each
call that leaves the Value allocated is at least 1; a call releases the Value exactly when
it is a `decrRefCount` made at refcount 1.  After `k` increments, `j <= k` decrements leave
the Value live with refcount `1 + k - j` (the first `k` give back the initial state), and
the `(k+1)`-th decrement is the call that runs the type-dispatched destructor followed by
`zfree(o)`.  For a Value that owns its payload, and so for the Value of every constructor
but `createZiplistObject`, that call returns: the Value has been released exactly once
(with every block its constructor allocated) and every later call on it is undefined.
Only for a Value whose type and encoding the destructor rejects, as the list of
`createZiplistObject`, does the call stop in `serverPanic` with the Value not destroyed. -/
theorem refcount_protocol (s : State) (a : Addr) (r : Robj) (k : Nat)
    (h : getObj s a = some r) (hrc : r.refcount = 1) :
    (∀ ops s1 r1, runRefOps s a ops = .ret () s1 → getObj s1 a = some r1 →
      1 ≤ r1.refcount) ∧
    (∀ ops s1 s2 r1 op, runRefOps s a ops = .ret () s1 → getObj s1 a = some r1 →
      applyRefOp s1 a op = .ret () s2 →
      (getObj s2 a = none ↔ (op = .decr ∧ r1.refcount = 1))) ∧
    runRefOps s a (List.replicate k .incr ++ List.replicate k .decr) = .ret () s ∧
    runRefOps s a (List.replicate k .incr ++ List.replicate (k + 1) .decr) =
      (freeByType s r).andThen (fun s1 => zfree s1 (.ref a)) ∧
    (∀ s2, runRefOps s a (List.replicate k .incr ++ List.replicate (k + 1) .decr)
        = .ret () s2 →
      (s2.heap[a]?).map Cell.frees = some 1 ∧ getObj s2 a = none ∧
      ∀ op ops, runRefOps s2 a (op :: ops) = .undefined) ∧
    (∀ j, j ≤ k →
      ∃ s1, runRefOps s a (List.replicate k .incr ++ List.replicate j .decr) = .ret () s1 ∧
        getObj s1 a = some { r with refcount := r.refcount + ((k - j : Nat) : Int) }) ∧
    (ownsPayload s a r = true →
      ∃ s2, runRefOps s a (List.replicate k .incr ++ List.replicate (k + 1) .decr)
          = .ret () s2 ∧
        (s2.heap[a]?).map Cell.frees = some 1 ∧ getObj s2 a = none ∧
        ∀ op ops, runRefOps s2 a (op :: ops) = .undefined) ∧
    (destructorRejects r = true →
      ∃ m, runRefOps s a (List.replicate k .incr ++ List.replicate (k + 1) .decr)
        = .panic m s) ∧
    (∀ (s0 : State) (b : Option (List UInt8)) (len : Nat),
      ∃ s2, runRefOps (createRawStringObject s0 b len).2 (createRawStringObject s0 b len).1
          (List.replicate k .incr ++ List.replicate (k + 1) .decr) = .ret () s2 ∧
        ReleasedOnce s0 (createRawStringObject s0 b len).2 s2 2) ∧
    (∀ (p : Platform) (s0 : State) (v : Int), v < 0 ∨ (p.OBJ_SHARED_INTEGERS : Int) ≤ v →
      ∃ o s1 s2, createStringObjectFromLongLong p s0 v = .ret (some o) s1 ∧
        runRefOps s1 o (List.replicate k .incr ++ List.replicate (k + 1) .decr)
          = .ret () s2 ∧
        ReleasedOnce s0 s1 s2 (if p.LONG_MIN ≤ v ∧ v ≤ p.LONG_MAX then 1 else 2)) ∧
    (∀ s0 : State,
      (∃ s2, runRefOps (createQuicklistObject s0).2 (createQuicklistObject s0).1
          (List.replicate k .incr ++ List.replicate (k + 1) .decr) = .ret () s2 ∧
        ReleasedOnce s0 (createQuicklistObject s0).2 s2 2) ∧
      (∃ s2, runRefOps (createSetObject s0).2 (createSetObject s0).1
          (List.replicate k .incr ++ List.replicate (k + 1) .decr) = .ret () s2 ∧
        ReleasedOnce s0 (createSetObject s0).2 s2 2) ∧
      (∃ s2, runRefOps (createIntsetObject s0).2 (createIntsetObject s0).1
          (List.replicate k .incr ++ List.replicate (k + 1) .decr) = .ret () s2 ∧
        ReleasedOnce s0 (createIntsetObject s0).2 s2 2) ∧
      (∃ s2, runRefOps (createHashObject s0).2 (createHashObject s0).1
          (List.replicate k .incr ++ List.replicate (k + 1) .decr) = .ret () s2 ∧
        ReleasedOnce s0 (createHashObject s0).2 s2 2) ∧
      (∃ s2, runRefOps (createZsetObject s0).2 (createZsetObject s0).1
          (List.replicate k .incr ++ List.replicate (k + 1) .decr) = .ret () s2 ∧
        ReleasedOnce s0 (createZsetObject s0).2 s2 4) ∧
      (∃ s2, runRefOps (createZsetZiplistObject s0).2 (createZsetZiplistObject s0).1
          (List.replicate k .incr ++ List.replicate (k + 1) .decr) = .ret () s2 ∧
        ReleasedOnce s0 (createZsetZiplistObject s0).2 s2 2) ∧
      runRefOps (createZiplistObject s0).2 (createZiplistObject s0).1
          (List.replicate k .incr ++ List.replicate (k + 1) .decr) =
        .panic "Unknown list encoding type" (createZiplistObject s0).2) := by
  have hpos : (1 : Int) ≤ r.refcount := by omega
  have hlast : runRefOps s a (List.replicate k .incr ++ List.replicate (k + 1) .decr) =
      (freeByType s r).andThen (fun s1 => zfree s1 (.ref a)) := by
    rw [runRefOps_last a s r k h hrc, decrRefCount_eq_of_one s a r h hrc]
  refine ⟨fun ops => runRefOps_refcount_pos a ops s r h hpos, ?_, ?_, hlast, ?_,
    fun j hj => runRefOps_prefix a s r k j h hpos hj, ?_, ?_,
    fun s0 b len => run_createRawStringObject s0 b len k,
    fun p s0 v hv => run_createStringObjectFromLongLong p s0 v k hv,
    fun s0 => ⟨run_createQuicklistObject s0 k, run_createSetObject s0 k,
      run_createIntsetObject s0 k, run_createHashObject s0 k, run_createZsetObject s0 k,
      run_createZsetZiplistObject s0 k, run_createZiplistObject s0 k⟩⟩
  · intro ops s1 s2 r1 op _ h1 hop
    exact applyRefOp_destroys_iff s1 s2 a r1 op h1 hop
  · simpa using runRefOps_incr_decr a k s r [] h hpos
  · intro s2 h2
    rw [hlast, ← decrRefCount_eq_of_one s a r h hrc] at h2
    have hd := decrRefCount_destroys s s2 a r h hrc h2
    exact ⟨hd.1, hd.2, fun op ops => runRefOps_dead s2 a hd.2 op ops⟩
  · intro hown
    obtain ⟨s2, e1, e2, e3⟩ := decrRefCount_owned s a r h hrc hown
    exact ⟨s2, by rw [runRefOps_last a s r k h hrc]; exact e1, e2, e3,
      fun op ops => runRefOps_dead s2 a e3 op ops⟩
  · intro hrej
    obtain ⟨m, e⟩ := decrRefCount_rejected s a r h hrc hrej
    exact ⟨m, by rw [runRefOps_last a s r k h hrc]; exact e⟩

theorem refcount_protocol_witness :
    (getObj (createHashObject emptyState).2 1 = some (⟨OBJ_HASH, OBJ_ENCODING_ZIPLIST, 9, 1, .ref 0⟩ : Robj) ∧ (⟨OBJ_HASH, OBJ_ENCODING_ZIPLIST, 9, 1, .ref 0⟩ : Robj).refcount = 1 ∧
      ownsPayload (createHashObject emptyState).2 1 (⟨OBJ_HASH, OBJ_ENCODING_ZIPLIST, 9, 1, .ref 0⟩ : Robj) = true) ∧
    ((∀ ops s1 r1, runRefOps (createHashObject emptyState).2 1 ops = .ret () s1 → getObj s1 1 = some r1 →
      1 ≤ r1.refcount) ∧
    (∀ ops s1 s2 r1 op, runRefOps (createHashObject emptyState).2 1 ops = .ret () s1 → getObj s1 1 = some r1 →
      applyRefOp s1 1 op = .ret () s2 →
      (getObj s2 1 = none ↔ (op = .decr ∧ r1.refcount = 1))) ∧
    runRefOps (createHashObject emptyState).2 1 (List.replicate 2 .incr ++ List.replicate 2 .decr) = .ret () (createHashObject emptyState).2 ∧
    runRefOps (createHashObject emptyState).2 1 (List.replicate 2 .incr ++ List.replicate (2 + 1) .decr) =
      (freeByType (createHashObject emptyState).2 (⟨OBJ_HASH, OBJ_ENCODING_ZIPLIST, 9, 1, .ref 0⟩ : Robj)).andThen (fun s1 => zfree s1 (.ref 1)) ∧
    (∀ s2, runRefOps (createHashObject emptyState).2 1 (List.replicate 2 .incr ++ List.replicate (2 + 1) .decr)
        = .ret () s2 →
      (s2.heap[1]?).map Cell.frees = some 1 ∧ getObj s2 1 = none ∧
      ∀ op ops, runRefOps s2 1 (op :: ops) = .undefined) ∧
    (∀ j, j ≤ 2 →
      ∃ s1, runRefOps (createHashObject emptyState).2 1 (List.replicate 2 .incr ++ List.replicate j .decr) = .ret () s1 ∧
        getObj s1 1 = some { (⟨OBJ_HASH, OBJ_ENCODING_ZIPLIST, 9, 1, .ref 0⟩ : Robj) with refcount := (⟨OBJ_HASH, OBJ_ENCODING_ZIPLIST, 9, 1, .ref 0⟩ : Robj).refcount + ((2 - j : Nat) : Int) }) ∧
    (ownsPayload (createHashObject emptyState).2 1 (⟨OBJ_HASH, OBJ_ENCODING_ZIPLIST, 9, 1, .ref 0⟩ : Robj) = true →
      ∃ s2, runRefOps (createHashObject emptyState).2 1 (List.replicate 2 .incr ++ List.replicate (2 + 1) .decr)
          = .ret () s2 ∧
        (s2.heap[1]?).map Cell.frees = some 1 ∧ getObj s2 1 = none ∧
        ∀ op ops, runRefOps s2 1 (op :: ops) = .undefined) ∧
    (destructorRejects (⟨OBJ_HASH, OBJ_ENCODING_ZIPLIST, 9, 1, .ref 0⟩ : Robj) = true →
      ∃ m, runRefOps (createHashObject emptyState).2 1 (List.replicate 2 .incr ++ List.replicate (2 + 1) .decr)
        = .panic m (createHashObject emptyState).2) ∧
    (∀ (s0 : State) (b : Option (List UInt8)) (len : Nat),
      ∃ s2, runRefOps (createRawStringObject s0 b len).2 (createRawStringObject s0 b len).1
          (List.replicate 2 .incr ++ List.replicate (2 + 1) .decr) = .ret () s2 ∧
        ReleasedOnce s0 (createRawStringObject s0 b len).2 s2 2) ∧
    (∀ (p : Platform) (s0 : State) (v : Int), v < 0 ∨ (p.OBJ_SHARED_INTEGERS : Int) ≤ v →
      ∃ o s1 s2, createStringObjectFromLongLong p s0 v = .ret (some o) s1 ∧
        runRefOps s1 o (List.replicate 2 .incr ++ List.replicate (2 + 1) .decr)
          = .ret () s2 ∧
        ReleasedOnce s0 s1 s2 (if p.LONG_MIN ≤ v ∧ v ≤ p.LONG_MAX then 1 else 2)) ∧
    (∀ s0 : State,
      (∃ s2, runRefOps (createQuicklistObject s0).2 (createQuicklistObject s0).1
          (List.replicate 2 .incr ++ List.replicate (2 + 1) .decr) = .ret () s2 ∧
        ReleasedOnce s0 (createQuicklistObject s0).2 s2 2) ∧
      (∃ s2, runRefOps (createSetObject s0).2 (createSetObject s0).1
          (List.replicate 2 .incr ++ List.replicate (2 + 1) .decr) = .ret () s2 ∧
        ReleasedOnce s0 (createSetObject s0).2 s2 2) ∧
      (∃ s2, runRefOps (createIntsetObject s0).2 (createIntsetObject s0).1
          (List.replicate 2 .incr ++ List.replicate (2 + 1) .decr) = .ret () s2 ∧
        ReleasedOnce s0 (createIntsetObject s0).2 s2 2) ∧
      (∃ s2, runRefOps (createHashObject s0).2 (createHashObject s0).1
          (List.replicate 2 .incr ++ List.replicate (2 + 1) .decr) = .ret () s2 ∧
        ReleasedOnce s0 (createHashObject s0).2 s2 2) ∧
      (∃ s2, runRefOps (createZsetObject s0).2 (createZsetObject s0).1
          (List.replicate 2 .incr ++ List.replicate (2 + 1) .decr) = .ret () s2 ∧
        ReleasedOnce s0 (createZsetObject s0).2 s2 4) ∧
      (∃ s2, runRefOps (createZsetZiplistObject s0).2 (createZsetZiplistObject s0).1
          (List.replicate 2 .incr ++ List.replicate (2 + 1) .decr) = .ret () s2 ∧
        ReleasedOnce s0 (createZsetZiplistObject s0).2 s2 2) ∧
      runRefOps (createZiplistObject s0).2 (createZiplistObject s0).1
          (List.replicate 2 .incr ++ List.replicate (2 + 1) .decr) =
        .panic "Unknown list encoding type" (createZiplistObject s0).2)) ∧
    (∃ s2, runRefOps (createHashObject emptyState).2 1 (List.replicate 2 .incr ++ List.replicate (2 + 1) .decr)
          = .ret () s2 ∧
        (s2.heap[1]?).map Cell.frees = some 1 ∧ getObj s2 1 = none ∧
        ∀ op ops, runRefOps s2 1 (op :: ops) = .undefined) :=
  ⟨⟨by decide, by decide, by decide⟩,
    refcount_protocol (createHashObject emptyState).2 1 (⟨OBJ_HASH, OBJ_ENCODING_ZIPLIST, 9, 1, .ref 0⟩ : Robj) 2 (by decide) (by decide),
    (refcount_protocol (createHashObject emptyState).2 1 (⟨OBJ_HASH, OBJ_ENCODING_ZIPLIST, 9, 1, .ref 0⟩ : Robj) 2 (by decide)
      (by decide)).2.2.2.2.2.2.1 (by decide)⟩

/-- C20 (the claim as stated fails): on the pool of three singletons a caller takes one
reference to the singleton for 2 with `createStringObjectFromLongLong(2)` and then calls
`decrRefCount` twice.  The second `decrRefCount` is made at refcount 1: it runs the
destructor and releases the singleton, which `shared.integers` still refers to. -/
theorem pool_singleton_destroyed :
    runPoolOps smallPool poolState 2 2 [.create, .decr, .decr] =
      .ret ()
        { heap := [⟨.robj ⟨OBJ_STRING, OBJ_ENCODING_INT, 9, 1, .long 0⟩, 0⟩,
                   ⟨.robj ⟨OBJ_STRING, OBJ_ENCODING_INT, 9, 1, .long 1⟩, 0⟩,
                   ⟨.robj ⟨OBJ_STRING, OBJ_ENCODING_INT, 9, 1, .long 2⟩, 1⟩],
          integers := [0, 1, 2], lruclock := 9 } ∧
    poolState.integers[2]? = some 2 := by
  constructor <;> rfl

/-- C20 (amended): `decrRefCount` has no special case for pool singletons.  A singleton
with refcount at least 1 stays allocated through every sequence of
`createStringObjectFromLongLong(v)`, `incrRefCount` and `decrRefCount` calls in which each
`decrRefCount` is made when the refcount is at least 2; its refcount then is the initial
one plus the number of the first two kinds of call minus the number of decrements, and is
at least 1.  A `decrRefCount` made when the refcount is 1 runs the destructor and releases
the singleton although `shared.integers` still refers to it. -/
theorem pool_singleton_survives (p : Platform) (s : State) (v : Int) (a : Addr) (r : Robj)
    (ops : List PoolOp) (hv0 : 0 ≤ v) (hv1 : v < (p.OBJ_SHARED_INTEGERS : Int))
    (ha : s.integers[v.toNat]? = some a) (hr : getObj s a = some r)
    (hrc : 1 ≤ r.refcount) (hsafe : releasesOnlyTaken r.refcount ops = true) :
    (∃ s1, runPoolOps p s v a ops = .ret () s1 ∧
      getObj s1 a = some { r with refcount := countAfter r.refcount ops } ∧
      1 ≤ countAfter r.refcount ops ∧ s1.integers = s.integers) ∧
    (r.refcount = 1 → r.type = OBJ_STRING → r.encoding = OBJ_ENCODING_INT →
      decrRefCount s a = .ret () (release s a) ∧
      ((release s a).heap[a]?).map Cell.frees = some 1 ∧
      getObj (release s a) a = none ∧ (release s a).integers[v.toNat]? = some a) := by
  refine ⟨runPoolOps_safe p v a hv0 hv1 ops s r ha hr hrc hsafe, ?_⟩
  intro h1 ht he
  have hne : r.encoding ≠ OBJ_ENCODING_RAW := by
    rw [he]
    decide
  refine ⟨(decrRefCount_unknown_encoding_panics s a r hr h1).2.2.2.2 ht hne,
    (release_dead s a r hr).2, (release_dead s a r hr).1, ha⟩

theorem pool_singleton_survives_witness :
    ((0 : Int) ≤ 2 ∧ (2 : Int) < (smallPool.OBJ_SHARED_INTEGERS : Int) ∧
      poolState.integers[(2 : Int).toNat]? = some 2 ∧
      getObj poolState 2 = some (⟨OBJ_STRING, OBJ_ENCODING_INT, 9, 1, .long 2⟩ : Robj) ∧ 1 ≤ (⟨OBJ_STRING, OBJ_ENCODING_INT, 9, 1, .long 2⟩ : Robj).refcount ∧
      releasesOnlyTaken (⟨OBJ_STRING, OBJ_ENCODING_INT, 9, 1, .long 2⟩ : Robj).refcount [.create, .incr, .decr, .decr] = true) ∧
    ((∃ s1, runPoolOps smallPool poolState (2 : Int) 2 [.create, .incr, .decr, .decr] = .ret () s1 ∧
      getObj s1 2 = some { (⟨OBJ_STRING, OBJ_ENCODING_INT, 9, 1, .long 2⟩ : Robj) with refcount := countAfter (⟨OBJ_STRING, OBJ_ENCODING_INT, 9, 1, .long 2⟩ : Robj).refcount [.create, .incr, .decr, .decr] } ∧
      1 ≤ countAfter (⟨OBJ_STRING, OBJ_ENCODING_INT, 9, 1, .long 2⟩ : Robj).refcount [.create, .incr, .decr, .decr] ∧ s1.integers = poolState.integers) ∧
    ((⟨OBJ_STRING, OBJ_ENCODING_INT, 9, 1, .long 2⟩ : Robj).refcount = 1 → (⟨OBJ_STRING, OBJ_ENCODING_INT, 9, 1, .long 2⟩ : Robj).type = OBJ_STRING → (⟨OBJ_STRING, OBJ_ENCODING_INT, 9, 1, .long 2⟩ : Robj).encoding = OBJ_ENCODING_INT →
      decrRefCount poolState 2 = .ret () (release poolState 2) ∧
      ((release poolState 2).heap[2]?).map Cell.frees = some 1 ∧
      getObj (release poolState 2) 2 = none ∧ (release poolState 2).integers[(2 : Int).toNat]? = some 2)) :=
  ⟨⟨by decide, by decide, by decide, by decide, by decide, by decide⟩,
    pool_singleton_survives smallPool poolState 2 2 (⟨OBJ_STRING, OBJ_ENCODING_INT, 9, 1, .long 2⟩ : Robj) [.create, .incr, .decr, .decr]
      (by decide) (by decide) (by decide) (by decide) (by decide) (by decide)⟩

end RedisObject
